/-
Verification of the truss-stress-analyzer repository.

Shallow embedding of the client's domain model, controller operations
(Home.tsx), canvas interaction flow (TrussCanvas.tsx), coordinate modal
(CoordinateInputModal.tsx) and the analysis engine (trussAnalysis.ts),
with numbers modelled as real numbers.
-/
import Mathlib

namespace Truss

/-! ## Domain model (trussTypes.ts) -/

/-- Support type of a node.  The canonical type in trussTypes.ts lists only
hinged and roller, but the UI (Home.tsx / TrussCanvas.tsx) also assigns a
fixed variant, so the embedding carries all three. -/
inductive Support where
  | fixed
  | hinged
  | roller
deriving DecidableEq

/-- A 2D force vector (kN), y positive downward. -/
structure Load where
  x : ℝ
  y : ℝ

/-- A joint of the truss. -/
structure TrussNode where
  id : String
  x : ℝ
  y : ℝ
  support : Option Support
  load : Option Load

/-- A bar connecting two nodes (denormalized node snapshots, as in source). -/
structure TrussMember where
  id : String
  node1 : TrussNode
  node2 : TrussNode

/-- Default load settings state in Home.tsx: magnitude 10, angle 270. -/
structure LoadSettings where
  magnitude : ℝ
  angle : ℝ

/-- Statistics record computed by calculateStats in Home.tsx. -/
structure TrussStats where
  nodeCount : ℕ
  memberCount : ℕ
  reactionCount : ℕ
  mrSum : ℕ
  twoJValue : ℕ
  determinacy : String

/-- Reaction force at a supported node. -/
structure ReactionForces where
  x : ℝ
  y : ℝ

/-- Result of one analysis run; the two maps are association lists in
JS-object semantics (assignment by key; a later write to the same key
overwrites, modelled by last-entry-wins lookup). -/
structure AnalysisResults where
  memberForces : List (String × ℝ)
  reactionForces : List (String × ReactionForces)
  isStable : Bool

/-- Interaction mode (trussTypes.ts). -/
inductive Mode where
  | select
  | addNode
  | addMember
  | delete
  | fixedSupport
  | rollerSupport
  | hingedSupport
  | applyLoad
deriving DecidableEq

/-- Last-write-wins lookup in an association list: the JS-object read
`obj[key]` after a sequence of assignments. -/
def lookupLast {α : Type} (l : List (String × α)) (key : String) : Option α :=
  (l.filterMap (fun p => if p.1 = key then some p.2 else none)).getLast?

/-! ## Controller state-mutating operations (Home.tsx) -/

/-- Home.tsx addNode: append a node with id node-(length+1), no support,
no load. -/
def addNode (nodes : List TrussNode) (x y : ℝ) : List TrussNode :=
  nodes ++ [{ id := "node-" ++ Nat.repr (nodes.length + 1)
              x := x, y := y, support := none, load := none }]

/-- The duplicate check in Home.tsx addMember: some existing member already
connects the same unordered pair of node ids. -/
def memberExists (members : List TrussMember) (node1 node2 : TrussNode) : Bool :=
  members.any fun m =>
    (m.node1.id = node1.id && m.node2.id = node2.id) ||
    (m.node1.id = node2.id && m.node2.id = node1.id)

/-- Home.tsx addMember: append member-(length+1) unless the pair already
exists or the two nodes coincide (silent no-op). -/
def addMember (members : List TrussMember) (node1 node2 : TrussNode) : List TrussMember :=
  if !(memberExists members node1 node2) && node1.id ≠ node2.id then
    members ++ [{ id := "member-" ++ Nat.repr (members.length + 1)
                  node1 := node1, node2 := node2 }]
  else
    members

/-- Home.tsx updateNodePosition: rewrite the node's coordinates, then
re-synchronize the endpoint snapshot of every member referencing it
(members untouched when the id is absent, mirroring the early return). -/
def updateNodePosition (nodes : List TrussNode) (members : List TrussMember)
    (nodeId : String) (x y : ℝ) : List TrussNode × List TrussMember :=
  let updatedNodes := nodes.map fun node =>
    if node.id = nodeId then { node with x := x, y := y } else node
  match updatedNodes.find? (fun node => node.id = nodeId) with
  | none => (updatedNodes, members)
  | some updatedNode =>
      (updatedNodes,
       members.map fun member =>
         if member.node1.id = nodeId then { member with node1 := updatedNode }
         else if member.node2.id = nodeId then { member with node2 := updatedNode }
         else member)

/-- Home.tsx setSupportToNode. -/
def setSupportToNode (nodes : List TrussNode) (nodeId : String)
    (supportType : Option Support) : List TrussNode :=
  nodes.map fun node =>
    if node.id = nodeId then { node with support := supportType } else node

/-- The reactionCount accumulation in Home.tsx calculateStats:
2 per hinged node, 1 per roller node, 0 otherwise. -/
def reactionCount (nodes : List TrussNode) : ℕ :=
  nodes.foldl
    (fun acc node =>
      match node.support with
      | some Support.hinged => acc + 2
      | some Support.roller => acc + 1
      | _ => acc)
    0

/-- Home.tsx calculateStats. -/
def calculateStats (nodes : List TrussNode) (members : List TrussMember) : TrussStats :=
  let nodeCount := nodes.length
  let memberCount := members.length
  let rc := reactionCount nodes
  let mrSum := memberCount + rc
  let twoJValue := 2 * nodeCount
  let determinacy :=
    if nodeCount > 0 ∧ memberCount > 0 ∧ rc > 0 then
      if mrSum = twoJValue then "Determinate"
      else if mrSum > twoJValue then "Indeterminate"
      else "Unstable"
    else "Not Calculated"
  { nodeCount := nodeCount, memberCount := memberCount, reactionCount := rc
    mrSum := mrSum, twoJValue := twoJValue, determinacy := determinacy }

/-- Home.tsx deleteNode, node-list part: remove the node by id. -/
def deleteNodeNodes (nodes : List TrussNode) (nodeId : String) : List TrussNode :=
  nodes.filter fun n => n.id ≠ nodeId

/-- Home.tsx deleteNode, member-list part: cascade-remove every member
referencing the id. -/
def deleteNodeMembers (members : List TrussMember) (nodeId : String) : List TrussMember :=
  members.filter fun m => m.node1.id ≠ nodeId ∧ m.node2.id ≠ nodeId

/-- Home.tsx deleteMember. -/
def deleteMemberOp (members : List TrussMember) (memberId : String) : List TrussMember :=
  members.filter fun m => m.id ≠ memberId

/-! ## Load toggling and the coordinate dialog (Home.tsx,
CoordinateInputModal.tsx) -/

noncomputable section

/-- Home.tsx applyLoadToNode: toggle the load of every node with the given
id, converting the current LoadSettings to a vector with
theta = angle·π/180, loadX = magnitude·cos theta,
loadY = −magnitude·sin theta. -/
def applyLoadToNode (settings : LoadSettings) (nodeId : String)
    (nodes : List TrussNode) : List TrussNode :=
  nodes.map fun node =>
    if node.id = nodeId then
      match node.load with
      | some _ => { node with load := none }
      | none =>
          let theta := settings.angle * Real.pi / 180
          let loadX := settings.magnitude * Real.cos theta
          let loadY := -settings.magnitude * Real.sin theta
          { node with load := some (Load.mk loadX loadY) }
    else node

/-- Home.tsx openEditNodeModal: initial dialog values
(node.x / 100, −node.y / 100). -/
def openEditInitialValues (node : TrussNode) : ℝ × ℝ :=
  (node.x / 100, -node.y / 100)

/-- CoordinateInputModal.tsx handleSubmit: the dialog flips the sign of Y
before invoking the caller's submit callback. -/
def modalSubmitValues (x y : ℝ) : ℝ × ℝ :=
  (x, -y)

/-- Home.tsx handleCoordinateModalSubmit in the editing configuration:
scale both submitted values by 100 and update the node position. -/
def handleCoordinateModalSubmitEdit (nodeId : String) (x y : ℝ)
    (nodes : List TrussNode) (members : List TrussMember) :
    List TrussNode × List TrussMember :=
  updateNodePosition nodes members nodeId (x * 100) (y * 100)

/-- Home.tsx handleCoordinateModalSubmit in the adding configuration. -/
def handleCoordinateModalSubmitAdd (x y : ℝ) (nodes : List TrussNode) :
    List TrussNode :=
  addNode nodes (x * 100) (y * 100)

/-! ## Analysis engine (trussAnalysis.ts) -/

/-- trussAnalysis.ts calculateAngle: Math.atan2(dy, dx), i.e. the argument
of the complex number dx + dy·i. -/
def calculateAngle (node1 node2 : TrussNode) : ℝ :=
  Complex.arg ⟨node2.x - node1.x, node2.y - node1.y⟩

/-- trussAnalysis.ts calculateLength. -/
def calculateLength (node1 node2 : TrussNode) : ℝ :=
  Real.sqrt ((node2.x - node1.x) * (node2.x - node1.x) +
             (node2.y - node1.y) * (node2.y - node1.y))

/-- Young's modulus constant E = 200000 from trussAnalysis.ts. -/
def elasticModulus : ℝ := 200000

/-- Cross-sectional area constant A = 1000 from trussAnalysis.ts. -/
def sectionArea : ℝ := 1000

/-- nodes.findIndex(n => n.id === id): index of the node with the given id,
−1 when absent. -/
def findIndex (nodes : List TrussNode) (id : String) : ℤ :=
  match nodes.findIdx? (fun n => n.id = id) with
  | some i => (i : ℤ)
  | none => -1

/-- The four global DOF indices [2·i1, 2·i1+1, 2·i2, 2·i2+1] of a member. -/
def memberIndices (nodes : List TrussNode) (m : TrussMember) : Fin 4 → ℤ :=
  ![2 * findIndex nodes m.node1.id, 2 * findIndex nodes m.node1.id + 1,
    2 * findIndex nodes m.node2.id, 2 * findIndex nodes m.node2.id + 1]

/-- The 4×4 member stiffness matrix in global coordinates, built from
k = E·A/L and the direction cosines c = cos θ, s = sin θ. -/
def memberK (m : TrussMember) : Fin 4 → Fin 4 → ℝ :=
  let angle := calculateAngle m.node1 m.node2
  let length := calculateLength m.node1 m.node2
  let k := elasticModulus * sectionArea / length
  let c := Real.cos angle
  let s := Real.sin angle
  let kxx := k * c * c
  let kxy := k * c * s
  let kyy := k * s * s
  ![![kxx, kxy, -kxx, -kxy],
    ![kxy, kyy, -kxy, -kyy],
    ![-kxx, -kxy, kxx, kxy],
    ![-kxy, -kyy, kxy, kyy]]

/-- One member's additive assembly into the global stiffness matrix:
K[indices[i]][indices[j]] += memberK[i][j] over the 4×4 block. -/
def addMemberK (nodes : List TrussNode) (K : ℤ → ℤ → ℝ) (m : TrussMember) :
    ℤ → ℤ → ℝ :=
  fun p q => K p q +
    ∑ i : Fin 4, ∑ j : Fin 4,
      if memberIndices nodes m i = p ∧ memberIndices nodes m j = q then
        memberK m i j
      else 0

/-- The assembled global stiffness matrix (before boundary reduction),
as a function of a pair of DOF indices. -/
def assembleK (nodes : List TrussNode) (members : List TrussMember) : ℤ → ℤ → ℝ :=
  members.foldl (addMemberK nodes) (fun _ _ => 0)

/-- The global force vector: each loaded node writes its load components
at DOF slots 2i and 2i+1 (nodes.forEach walk, starting index 0). -/
def buildFAux (i : ℕ) (nodes : List TrussNode) (F : ℤ → ℝ) : ℤ → ℝ :=
  match nodes with
  | [] => F
  | node :: rest =>
      buildFAux (i + 1) rest
        (match node.load with
         | some l => fun p =>
             if p = 2 * (i : ℤ) then l.x
             else if p = 2 * (i : ℤ) + 1 then l.y
             else F p
         | none => F)

/-- The global force vector of the truss. -/
def buildF (nodes : List TrussNode) : ℤ → ℝ :=
  buildFAux 0 nodes (fun _ => 0)

/-- The free DOF list: hinged contributes none of its DOFs, roller only
2i, an unsupported (or fixed-support) node both 2i and 2i+1, in node
order. -/
def freeDOFAux (i : ℕ) (nodes : List TrussNode) : List ℤ :=
  match nodes with
  | [] => []
  | node :: rest =>
      (match node.support with
       | some Support.hinged => []
       | some Support.roller => [2 * (i : ℤ)]
       | _ => [2 * (i : ℤ), 2 * (i : ℤ) + 1]) ++ freeDOFAux (i + 1) rest

/-- The fixed DOF list: both DOFs of a hinged node, only 2i+1 of a roller
node, in node order. -/
def fixedDOFAux (i : ℕ) (nodes : List TrussNode) : List ℤ :=
  match nodes with
  | [] => []
  | node :: rest =>
      (match node.support with
       | some Support.hinged => [2 * (i : ℤ), 2 * (i : ℤ) + 1]
       | some Support.roller => [2 * (i : ℤ) + 1]
       | _ => []) ++ fixedDOFAux (i + 1) rest

/-- The free DOFs of the node list. -/
def freeDOF (nodes : List TrussNode) : List ℤ := freeDOFAux 0 nodes

/-- The fixed DOFs of the node list. -/
def fixedDOF (nodes : List TrussNode) : List ℤ := fixedDOFAux 0 nodes

/-- The reduced stiffness matrix restricted to free DOFs, as a list of
rows. -/
def reducedK (nodes : List TrussNode) (members : List TrussMember) :
    List (List ℝ) :=
  (freeDOF nodes).map fun i => (freeDOF nodes).map fun j =>
    assembleK nodes members i j

/-- The reduced force vector restricted to free DOFs. -/
def reducedF (nodes : List TrussNode) : List ℝ :=
  (freeDOF nodes).map fun i => buildF nodes i

/-- One inner step of the forward elimination: eliminate column i from
row j (subtracting factor·row i from entries i..n−1 of row j, and from
F[j]). -/
def innerElim (i : ℕ) (st : List (List ℝ) × List ℝ) (j : ℕ) :
    List (List ℝ) × List ℝ :=
  let K := st.1
  let F := st.2
  let Ki := K.getD i []
  let Kj := K.getD j []
  let factor := Kj.getD i 0 / Ki.getD i 0
  let Kj' := (List.range Kj.length).map fun k =>
    if i ≤ k then Kj.getD k 0 - factor * Ki.getD k 0 else Kj.getD k 0
  (K.set j Kj', F.set j (F.getD j 0 - factor * F.getD i 0))

/-- Forward elimination of the Gaussian solve (no pivoting): for each
pivot row i, eliminate in every later row j. -/
def forwardElim (KF : List (List ℝ) × List ℝ) : List (List ℝ) × List ℝ :=
  let n := KF.1.length
  (List.range n).foldl
    (fun st i => (List.range' (i + 1) (n - (i + 1))).foldl (innerElim i) st)
    KF

/-- One step of backward substitution: set
d[i] = (F[i] − Σ_{j>i} K[i][j]·d[j]) / K[i][i]. -/
def backSubStep (K : List (List ℝ)) (F : List ℝ) (d : List ℝ) (i : ℕ) :
    List ℝ :=
  let n := K.length
  let s := ((List.range' (i + 1) (n - (i + 1))).map fun j =>
    (K.getD i []).getD j 0 * d.getD j 0).sum
  d.set i ((F.getD i 0 - s) / (K.getD i []).getD i 0)

/-- Backward substitution from the last row up, starting from a zero
vector. -/
def backSub (K : List (List ℝ)) (F : List ℝ) : List ℝ :=
  (List.range K.length).reverse.foldl (backSubStep K F)
    (List.replicate K.length 0)

/-- The free-DOF displacement vector d solved by Gaussian elimination. -/
def displacements (nodes : List TrussNode) (members : List TrussMember) :
    List ℝ :=
  let KF := forwardElim (reducedK nodes members, reducedF nodes)
  backSub KF.1 KF.2

/-- Displacement component of a global DOF: read from d when the DOF is
free, zero otherwise. -/
def dofDisp (nodes : List TrussNode) (members : List TrussMember) (p : ℤ) : ℝ :=
  if (freeDOF nodes).contains p then
    (displacements nodes members).getD ((freeDOF nodes).indexOf p) 0
  else 0

/-- The axial force of one member recovered from the displacement field. -/
def memberForce (nodes : List TrussNode) (members : List TrussMember)
    (m : TrussMember) : ℝ :=
  let node1Index := findIndex nodes m.node1.id
  let node2Index := findIndex nodes m.node2.id
  let angle := calculateAngle m.node1 m.node2
  let length := calculateLength m.node1 m.node2
  let dx1 := dofDisp nodes members (node1Index * 2)
  let dy1 := dofDisp nodes members (node1Index * 2 + 1)
  let dx2 := dofDisp nodes members (node2Index * 2)
  let dy2 := dofDisp nodes members (node2Index * 2 + 1)
  elasticModulus * sectionArea / length *
    ((dx2 - dx1) * Real.cos angle + (dy2 - dy1) * Real.sin angle)

/-- The member-force map of the analysis result. -/
def memberForcesList (nodes : List TrussNode) (members : List TrussMember) :
    List (String × ℝ) :=
  members.map fun m => (m.id, memberForce nodes members m)

/-- The x reaction at node position i: zero unless DOF 2i is fixed, else
F[2i] minus the free-displacement contribution of row 2i of K. -/
def reactionEntryX (nodes : List TrussNode) (members : List TrussMember)
    (i : ℕ) : ℝ :=
  if (fixedDOF nodes).contains (2 * (i : ℤ)) then
    buildF nodes (2 * (i : ℤ)) -
      ((freeDOF nodes).map fun j =>
        assembleK nodes members (2 * (i : ℤ)) j *
          (displacements nodes members).getD ((freeDOF nodes).indexOf j) 0).sum
  else 0

/-- The y reaction at node position i, analogous for DOF 2i+1. -/
def reactionEntryY (nodes : List TrussNode) (members : List TrussMember)
    (i : ℕ) : ℝ :=
  if (fixedDOF nodes).contains (2 * (i : ℤ) + 1) then
    buildF nodes (2 * (i : ℤ) + 1) -
      ((freeDOF nodes).map fun j =>
        assembleK nodes members (2 * (i : ℤ) + 1) j *
          (displacements nodes members).getD ((freeDOF nodes).indexOf j) 0).sum
  else 0

/-- The reaction map: every node with a (truthy) support field gets an
entry keyed by its id (nodes.forEach walk from index i). -/
def reactionsAux (nodes : List TrussNode) (members : List TrussMember)
    (i : ℕ) (rest : List TrussNode) : List (String × ReactionForces) :=
  match rest with
  | [] => []
  | node :: rest' =>
      (if node.support.isSome then
        [(node.id, { x := reactionEntryX nodes members i
                     y := reactionEntryY nodes members i })]
      else []) ++ reactionsAux nodes members (i + 1) rest'

/-- The full reaction map of the analysis result. -/
def reactionForcesList (nodes : List TrussNode) (members : List TrussMember) :
    List (String × ReactionForces) :=
  reactionsAux nodes members 0 nodes

/-- trussAnalysis.ts calculateTrussForces. -/
def calculateTrussForces (nodes : List TrussNode) (members : List TrussMember) :
    AnalysisResults :=
  { memberForces := memberForcesList nodes members
    reactionForces := reactionForcesList nodes members
    isStable := true }

/-! ## calculateForces (Home.tsx): precondition checks before the engine -/

/-- Home.tsx: `nodes.some(node => node.load !== null)`. -/
def hasLoad (nodes : List TrussNode) : Bool :=
  nodes.any fun node => node.load.isSome

/-- Outcome of pressing Calculate Forces: either a user-facing error
message or the engine's results. -/
inductive CalcOutcome where
  | error (msg : String)
  | results (r : AnalysisResults)

/-- Home.tsx calculateForces with the engine abstracted as a parameter:
the three checked preconditions short-circuit before `engine` is consulted. -/
def calculateForcesWith
    (engine : List TrussNode → List TrussMember → AnalysisResults)
    (nodes : List TrussNode) (members : List TrussMember) : CalcOutcome :=
  if nodes.length < 2 ∨ members.length < 1 then
    CalcOutcome.error "Not enough elements to analyze. Add more nodes and members."
  else if !(hasLoad nodes) then
    CalcOutcome.error "No loads defined. Click a node in 'Apply Load' mode to add a load."
  else
    let stats := calculateStats nodes members
    if stats.mrSum < stats.twoJValue then
      CalcOutcome.error "Truss is unstable. Add more members or supports."
    else
      CalcOutcome.results (engine nodes members)

/-- Home.tsx calculateForces with the real engine. -/
def calculateForces (nodes : List TrussNode) (members : List TrussMember) :
    CalcOutcome :=
  calculateForcesWith calculateTrussForces nodes members

/-! ## Application state (Home.tsx useState fields) and the
Controller/Canvas step relation -/

/-- The mutable state owned by the Home view. -/
structure AppState where
  mode : Mode
  nodes : List TrussNode
  members : List TrussMember
  selectedNode : Option TrussNode
  selectedMember : Option TrussMember
  firstNodeForMember : Option TrussNode
  analysisResults : Option AnalysisResults
  loadSettings : LoadSettings
  errorModal : Option String

/-- The initial state of the Home view. -/
def initState : AppState :=
  { mode := Mode.select, nodes := [], members := [], selectedNode := none
    selectedMember := none, firstNodeForMember := none, analysisResults := none
    loadSettings := { magnitude := 10, angle := 270 }, errorModal := none }

/-- Home.tsx deleteNode acting on the whole state: cascade member
deletion, node removal, and clearing a matching selection. -/
def homeDeleteNode (st : AppState) (nodeId : String) : AppState :=
  { st with
    members := deleteNodeMembers st.members nodeId
    nodes := deleteNodeNodes st.nodes nodeId
    selectedNode :=
      match st.selectedNode with
      | some sn => if sn.id = nodeId then none else some sn
      | none => none }

/-- Home.tsx deleteMember acting on the whole state. -/
def homeDeleteMember (st : AppState) (memberId : String) : AppState :=
  { st with
    members := deleteMemberOp st.members memberId
    selectedMember :=
      match st.selectedMember with
      | some sm => if sm.id = memberId then none else some sm
      | none => none }

/-- Home.tsx updateNodePosition acting on the whole state. -/
def homeUpdateNodePosition (st : AppState) (nodeId : String) (x y : ℝ) :
    AppState :=
  let p := updateNodePosition st.nodes st.members nodeId x y
  { st with nodes := p.1, members := p.2 }

/-- Home.tsx applyLoadToNode acting on the whole state. -/
def homeApplyLoad (st : AppState) (nodeId : String) : AppState :=
  { st with nodes := applyLoadToNode st.loadSettings nodeId st.nodes }

/-- Home.tsx clearAll. -/
def homeClearAll (st : AppState) : AppState :=
  { st with nodes := [], members := [], selectedNode := none
            selectedMember := none, firstNodeForMember := none
            analysisResults := none }

/-- Home.tsx calculateForces acting on the whole state: an error opens the
error modal and leaves the stored results untouched; success stores the
engine's results. -/
def homeCalculateWith
    (engine : List TrussNode → List TrussMember → AnalysisResults)
    (st : AppState) : AppState :=
  match calculateForcesWith engine st.nodes st.members with
  | CalcOutcome.error msg => { st with errorModal := some msg }
  | CalcOutcome.results r => { st with analysisResults := some r }

/-- Submitting the coordinate dialog in the adding configuration: the
dialog's sign flip (modalSubmitValues) feeds the Controller's ×100
scaling and addNode. -/
def homeCoordSubmitAdd (st : AppState) (x y : ℝ) : AppState :=
  let p := modalSubmitValues x y
  { st with nodes := handleCoordinateModalSubmitAdd p.1 p.2 st.nodes }

/-- Submitting the coordinate dialog in the editing configuration. -/
def homeCoordSubmitEdit (st : AppState) (nodeId : String) (x y : ℝ) : AppState :=
  let p := modalSubmitValues x y
  let q := handleCoordinateModalSubmitEdit nodeId p.1 p.2 st.nodes st.members
  { st with nodes := q.1, members := q.2 }

/-- TrussCanvas.tsx nodeGroup click handler: mode-driven dispatch, with
the pending-first-node flow in addMember mode. -/
def canvasNodeClick (st : AppState) (node : TrussNode) : AppState :=
  match st.mode with
  | Mode.select =>
      { st with selectedNode := some node, selectedMember := none }
  | Mode.delete => homeDeleteNode st node.id
  | Mode.addMember =>
      match st.firstNodeForMember with
      | none => { st with firstNodeForMember := some node }
      | some fn =>
          if fn.id ≠ node.id then
            { st with members := addMember st.members fn node
                      firstNodeForMember := none }
          else st
  | Mode.fixedSupport =>
      { st with nodes := setSupportToNode st.nodes node.id (some Support.fixed) }
  | Mode.hingedSupport =>
      { st with nodes := setSupportToNode st.nodes node.id (some Support.hinged) }
  | Mode.rollerSupport =>
      { st with nodes := setSupportToNode st.nodes node.id (some Support.roller) }
  | Mode.applyLoad => homeApplyLoad st node.id
  | Mode.addNode => st

/-- TrussCanvas.tsx member click handler. -/
def canvasMemberClick (st : AppState) (member : TrussMember) : AppState :=
  match st.mode with
  | Mode.select =>
      { st with selectedMember := some member, selectedNode := none }
  | Mode.delete => homeDeleteMember st member.id
  | _ => st

/-- One user-event step of the application: every Controller-mediated
mutation reachable from the Control Panel, the Canvas and the coordinate
dialog. -/
inductive Step : AppState → AppState → Prop where
  | setMode (st : AppState) (m : Mode) :
      Step st { st with mode := m }
  | nodeClick (st : AppState) (node : TrussNode) (h : node ∈ st.nodes) :
      Step st (canvasNodeClick st node)
  | memberClick (st : AppState) (member : TrussMember)
      (h : member ∈ st.members) :
      Step st (canvasMemberClick st member)
  | emptyClick (st : AppState) (x y : ℝ) (h : st.mode = Mode.addNode) :
      Step st { st with nodes := addNode st.nodes x y }
  | nodeDragStart (st : AppState) (node : TrussNode) (h : node ∈ st.nodes)
      (hm : st.mode = Mode.select) :
      Step st { st with selectedNode := some node, selectedMember := none }
  | nodeDrag (st : AppState) (node : TrussNode) (h : node ∈ st.nodes)
      (hm : st.mode = Mode.select) (x y : ℝ) :
      Step st (homeUpdateNodePosition st node.id x y)
  | nodeContextMenu (st : AppState) (node : TrussNode) (h : node ∈ st.nodes) :
      Step st (homeApplyLoad st node.id)
  | nodeDblClickOther (st : AppState) (node : TrussNode) (h : node ∈ st.nodes)
      (hm : st.mode ≠ Mode.select) :
      Step st (homeApplyLoad st node.id)
  | coordSubmitAdd (st : AppState) (x y : ℝ) :
      Step st (homeCoordSubmitAdd st x y)
  | coordSubmitEdit (st : AppState) (nodeId : String) (x y : ℝ) :
      Step st (homeCoordSubmitEdit st nodeId x y)
  | setLoadSettings (st : AppState) (magnitude angle : ℝ) :
      Step st { st with loadSettings := { magnitude := magnitude, angle := angle } }
  | calculate (st : AppState) :
      Step st (homeCalculateWith calculateTrussForces st)
  | clearAll (st : AppState) :
      Step st (homeClearAll st)
  | closeErrorModal (st : AppState) :
      Step st { st with errorModal := none }

/-- States reachable from the initial Home view state. -/
inductive Reachable : AppState → Prop where
  | init : Reachable initState
  | step {st st' : AppState} : Reachable st → Step st st' → Reachable st'

/-! ## Auxiliary predicates for the invariant claims -/

/-- Two members connect the same unordered pair of node ids. -/
def samePair (m1 m2 : TrussMember) : Prop :=
  (m1.node1.id = m2.node1.id ∧ m1.node2.id = m2.node2.id) ∨
  (m1.node1.id = m2.node2.id ∧ m1.node2.id = m2.node1.id)

/-- The member-list invariant of the spec: no duplicate unordered pair,
no self-loop. -/
def membersInvariant (members : List TrussMember) : Prop :=
  List.Pairwise (fun m1 m2 => ¬ samePair m1 m2) members ∧
  ∀ m ∈ members, m.node1.id ≠ m.node2.id

/-- Every member endpoint references a node present in the node list. -/
def endpointsValid (nodes : List TrussNode) (members : List TrussMember) : Prop :=
  ∀ m ∈ members, (∃ n ∈ nodes, n.id = m.node1.id) ∧ (∃ n ∈ nodes, n.id = m.node2.id)

/-- The disjunction of the checked preconditions of calculateForces. -/
def precondFails (nodes : List TrussNode) (members : List TrussMember) : Prop :=
  nodes.length < 2 ∨ members.length < 1 ∨ hasLoad nodes = false ∨
    (calculateStats nodes members).mrSum < (calculateStats nodes members).twoJValue

end

/-! ## Theorems for the claims -/

/-- C2: the determinacy classification computed by calculateStats is
"Not Calculated" when J, M or R is zero, otherwise "Determinate",
"Indeterminate" or "Unstable" according as M+R compares to 2J. -/
theorem c2_determinacy_classification (nodes : List TrussNode)
    (members : List TrussMember) :
    (calculateStats nodes members).determinacy =
      if nodes.length = 0 ∨ members.length = 0 ∨ reactionCount nodes = 0 then
        "Not Calculated"
      else if members.length + reactionCount nodes = 2 * nodes.length then
        "Determinate"
      else if members.length + reactionCount nodes > 2 * nodes.length then
        "Indeterminate"
      else "Unstable" := by
  by_cases h : nodes.length > 0 ∧ members.length > 0 ∧ reactionCount nodes > 0
  · have h' : ¬(nodes.length = 0 ∨ members.length = 0 ∨ reactionCount nodes = 0) := by
      omega
    simp only [calculateStats, if_pos h, if_neg h']
  · have h' : nodes.length = 0 ∨ members.length = 0 ∨ reactionCount nodes = 0 := by
      omega
    simp only [calculateStats, if_neg h, if_pos h']

/-- The first precondition short-circuits calculateForces. -/
theorem calculateForcesWith_insufficient
    (f : List TrussNode → List TrussMember → AnalysisResults)
    (nodes : List TrussNode) (members : List TrussMember)
    (h1 : nodes.length < 2 ∨ members.length < 1) :
    calculateForcesWith f nodes members =
      CalcOutcome.error "Not enough elements to analyze. Add more nodes and members." := by
  rw [calculateForcesWith, if_pos h1]

/-- The missing-load precondition short-circuits calculateForces. -/
theorem calculateForcesWith_noLoad
    (f : List TrussNode → List TrussMember → AnalysisResults)
    (nodes : List TrussNode) (members : List TrussMember)
    (h1 : ¬(nodes.length < 2 ∨ members.length < 1))
    (h2 : hasLoad nodes = false) :
    calculateForcesWith f nodes members =
      CalcOutcome.error "No loads defined. Click a node in 'Apply Load' mode to add a load." := by
  rw [calculateForcesWith, if_neg h1]
  rw [if_pos (by rw [h2]; rfl)]

/-- The instability precondition short-circuits calculateForces. -/
theorem calculateForcesWith_unstable
    (f : List TrussNode → List TrussMember → AnalysisResults)
    (nodes : List TrussNode) (members : List TrussMember)
    (h1 : ¬(nodes.length < 2 ∨ members.length < 1))
    (h2 : hasLoad nodes = true)
    (h3 : (calculateStats nodes members).mrSum <
      (calculateStats nodes members).twoJValue) :
    calculateForcesWith f nodes members =
      CalcOutcome.error "Truss is unstable. Add more members or supports." := by
  rw [calculateForcesWith, if_neg h1]
  rw [if_neg (by rw [h2]; simp)]
  rw [if_pos h3]

/-- C3: whenever one of the checked preconditions fails, calculateForces
produces the corresponding error message without consulting the engine
(the outcome is independent of the engine), and the stored analysis
results are unchanged; in particular an unstable structure with a load
present yields the unstable message. -/
theorem c3_precondition_short_circuit
    (f g : List TrussNode → List TrussMember → AnalysisResults)
    (st : AppState) (h : precondFails st.nodes st.members) :
    calculateForcesWith f st.nodes st.members =
      calculateForcesWith g st.nodes st.members ∧
    (∃ msg, calculateForcesWith f st.nodes st.members = CalcOutcome.error msg) ∧
    (homeCalculateWith f st).analysisResults = st.analysisResults ∧
    (st.nodes.length < 2 ∨ st.members.length < 1 →
      (homeCalculateWith f st).errorModal =
        some "Not enough elements to analyze. Add more nodes and members.") ∧
    (¬(st.nodes.length < 2 ∨ st.members.length < 1) → hasLoad st.nodes = false →
      (homeCalculateWith f st).errorModal =
        some "No loads defined. Click a node in 'Apply Load' mode to add a load.") ∧
    (¬(st.nodes.length < 2 ∨ st.members.length < 1) → hasLoad st.nodes = true →
      (calculateStats st.nodes st.members).mrSum <
        (calculateStats st.nodes st.members).twoJValue →
      (homeCalculateWith f st).errorModal =
        some "Truss is unstable. Add more members or supports.") := by
  have key : ∃ msg, ∀ f' : List TrussNode → List TrussMember → AnalysisResults,
      calculateForcesWith f' st.nodes st.members = CalcOutcome.error msg := by
    by_cases h1 : st.nodes.length < 2 ∨ st.members.length < 1
    · exact ⟨_, fun f' => calculateForcesWith_insufficient f' _ _ h1⟩
    · cases h2 : hasLoad st.nodes
      · exact ⟨_, fun f' => calculateForcesWith_noLoad f' _ _ h1 h2⟩
      · have h3 : (calculateStats st.nodes st.members).mrSum <
            (calculateStats st.nodes st.members).twoJValue := by
          rcases h with h | h | h | h
          · exact absurd (Or.inl h) h1
          · exact absurd (Or.inr h) h1
          · rw [h2] at h; exact absurd h (by simp)
          · exact h
        exact ⟨_, fun f' => calculateForcesWith_unstable f' _ _ h1 h2 h3⟩
  obtain ⟨msg, hmsg⟩ := key
  refine ⟨(hmsg f).trans (hmsg g).symm, ⟨msg, hmsg f⟩, ?_, ?_, ?_, ?_⟩
  · rw [homeCalculateWith, hmsg f]
  · intro h1
    rw [homeCalculateWith, calculateForcesWith_insufficient f _ _ h1]
  · intro h1 h2
    rw [homeCalculateWith, calculateForcesWith_noLoad f _ _ h1 h2]
  · intro h1 h2 h3
    rw [homeCalculateWith, calculateForcesWith_unstable f _ _ h1 h2 h3]

/-- Witness for C3 at the initial (empty) state. -/
theorem c3_witness :
    (homeCalculateWith calculateTrussForces initState).analysisResults =
      initState.analysisResults ∧
    (homeCalculateWith calculateTrussForces initState).errorModal =
      some "Not enough elements to analyze. Add more nodes and members." := by
  have h := c3_precondition_short_circuit calculateTrussForces
    (fun _ _ => { memberForces := [], reactionForces := [], isStable := true })
    initState (Or.inl (by simp [initState]))
  exact ⟨h.2.2.1, h.2.2.2.1 (Or.inl (by simp [initState]))⟩

/-- C6: applying a load toggles exactly the nodes carrying the given id:
an absent load becomes the vector (magnitude·cos(angle·π/180),
−magnitude·sin(angle·π/180)), a present load becomes absent (so applying
twice returns the node to its original unloaded form), and every other
node is unchanged. -/
theorem c6_apply_load_toggle (s : LoadSettings) (nid : String)
    (nodes : List TrussNode) :
    (applyLoadToNode s nid nodes).length = nodes.length ∧
    (∀ (i : ℕ) (n : TrussNode), nodes[i]? = some n → n.id ≠ nid →
      (applyLoadToNode s nid nodes)[i]? = some n) ∧
    (∀ (i : ℕ) (n : TrussNode), nodes[i]? = some n → n.id = nid →
      n.load = none →
      (applyLoadToNode s nid nodes)[i]? =
        some { n with load := some (Load.mk
          (s.magnitude * Real.cos (s.angle * Real.pi / 180))
          (-s.magnitude * Real.sin (s.angle * Real.pi / 180))) }) ∧
    (∀ (i : ℕ) (n : TrussNode), nodes[i]? = some n → n.id = nid →
      n.load.isSome →
      (applyLoadToNode s nid nodes)[i]? = some { n with load := none }) ∧
    (∀ (i : ℕ) (n : TrussNode), nodes[i]? = some n → n.id = nid →
      n.load = none →
      (applyLoadToNode s nid (applyLoadToNode s nid nodes))[i]? = some n) := by
  refine ⟨by simp [applyLoadToNode], ?_, ?_, ?_, ?_⟩
  · intro i n hn hid
    simp [applyLoadToNode, hn, hid]
  · intro i n hn hid hload
    simp [applyLoadToNode, hn, hid, hload]
  · intro i n hn hid hload
    obtain ⟨l, hl⟩ := Option.isSome_iff_exists.mp hload
    simp [applyLoadToNode, hn, hid, hl]
  · intro i n hn hid hload
    cases n with
    | mk id x y support load =>
        simp only at hid hload
        subst hid hload
        simp [applyLoadToNode, hn]

/-- Witness for C6: toggling a load on and off at angle 0. -/
theorem c6_witness :
    (applyLoadToNode (LoadSettings.mk 10 0) "a"
        [TrussNode.mk "a" 0 0 none none])[0]? =
      some { TrussNode.mk "a" 0 0 none none with load := some (Load.mk
        ((10 : ℝ) * Real.cos ((0 : ℝ) * Real.pi / 180))
        (-(10 : ℝ) * Real.sin ((0 : ℝ) * Real.pi / 180))) } ∧
    (applyLoadToNode (LoadSettings.mk 10 0) "a"
        (applyLoadToNode (LoadSettings.mk 10 0) "a"
          [TrussNode.mk "a" 0 0 none none]))[0]? =
      some (TrussNode.mk "a" 0 0 none none) := by
  constructor
  · exact (c6_apply_load_toggle (LoadSettings.mk 10 0) "a"
      [TrussNode.mk "a" 0 0 none none]).2.2.1 0 _ rfl rfl rfl
  · exact (c6_apply_load_toggle (LoadSettings.mk 10 0) "a"
      [TrussNode.mk "a" 0 0 none none]).2.2.2.2 0 _ rfl rfl rfl

/-- C9: for a node at internal position (300, −150) the edit dialog opens
with engineering values (3, 1.5), and submitting those same values back
through the dialog's sign flip and the Controller's ×100 scaling restores
the internal position (300, −150) on every node carrying that id. -/
theorem c9_coordinate_round_trip (nodes : List TrussNode)
    (members : List TrussMember) (n : TrussNode) (hn : n ∈ nodes)
    (hx : n.x = 300) (hy : n.y = -150) :
    openEditInitialValues n = (3, 1.5) ∧
    (∀ m ∈ (handleCoordinateModalSubmitEdit n.id (modalSubmitValues 3 1.5).1
        (modalSubmitValues 3 1.5).2 nodes members).1,
      m.id = n.id → m.x = 300 ∧ m.y = -150) ∧
    (∃ m ∈ (handleCoordinateModalSubmitEdit n.id (modalSubmitValues 3 1.5).1
        (modalSubmitValues 3 1.5).2 nodes members).1, m.id = n.id) := by
  refine ⟨?_, ?_, ?_⟩
  · simp only [openEditInitialValues, hx, hy, Prod.mk.injEq]
    norm_num
  · intro m hm hmid
    simp only [handleCoordinateModalSubmitEdit, modalSubmitValues,
      updateNodePosition] at hm
    rcases hf : (nodes.map fun node =>
        if node.id = n.id then { node with x := (3 : ℝ) * 100, y := -1.5 * 100 }
        else node).find? (fun node => node.id = n.id) with _ | un
    · rw [hf] at hm
      simp only at hm
      obtain ⟨node, hnode, hm⟩ := List.mem_map.mp hm
      by_cases hc : node.id = n.id
      · rw [if_pos hc] at hm
        subst hm
        constructor <;> norm_num
      · rw [if_neg hc] at hm
        subst hm
        exact absurd hmid hc
    · rw [hf] at hm
      simp only at hm
      obtain ⟨node, hnode, hm⟩ := List.mem_map.mp hm
      by_cases hc : node.id = n.id
      · rw [if_pos hc] at hm
        subst hm
        constructor <;> norm_num
      · rw [if_neg hc] at hm
        subst hm
        exact absurd hmid hc
  · refine ⟨{ n with x := (3 : ℝ) * 100, y := (-1.5 : ℝ) * 100 }, ?_, rfl⟩
    simp only [handleCoordinateModalSubmitEdit, modalSubmitValues,
      updateNodePosition]
    rcases hf : (nodes.map fun node =>
        if node.id = n.id then { node with x := (3 : ℝ) * 100, y := -1.5 * 100 }
        else node).find? (fun node => node.id = n.id) with _ | un
    · rw [hf]
      simp only
      exact List.mem_map.mpr ⟨n, hn, by rw [if_pos rfl]⟩
    · rw [hf]
      simp only
      exact List.mem_map.mpr ⟨n, hn, by rw [if_pos rfl]⟩

/-! ### C5: member-pair invariants -/

/-- addMember is a silent no-op on a self pair or an existing pair. -/
theorem addMember_noop (members : List TrussMember) (n1 n2 : TrussNode)
    (h : n1.id = n2.id ∨ memberExists members n1 n2 = true) :
    addMember members n1 n2 = members := by
  rw [addMember]
  rcases h with h | h
  · rw [if_neg]
    simp [h]
  · rw [if_neg]
    simp [h]

/-- When memberExists is false, no existing member shares the unordered
pair with a member built from n1 and n2. -/
theorem not_samePair_of_memberExists_false (members : List TrussMember)
    (n1 n2 : TrussNode) (h : memberExists members n1 n2 = false)
    (m : TrussMember) (hm : m ∈ members) (mid : String) :
    ¬ samePair m (TrussMember.mk mid n1 n2) := by
  rw [memberExists, List.any_eq_false] at h
  have := h m hm
  simp only [Bool.or_eq_true, Bool.and_eq_true, decide_eq_true_eq, not_or,
    not_and] at this
  rintro (⟨ha, hb⟩ | ⟨ha, hb⟩)
  · exact absurd hb (this.1 ha)
  · exact absurd hb (this.2 ha)

/-- addMember preserves the member-pair invariant. -/
theorem addMember_invariant (members : List TrussMember) (n1 n2 : TrussNode)
    (h : membersInvariant members) :
    membersInvariant (addMember members n1 n2) := by
  rw [addMember]
  split
  · next hcond =>
      simp only [Bool.and_eq_true, Bool.not_eq_true', decide_eq_true_eq] at hcond
      constructor
      · rw [List.pairwise_append]
        refine ⟨h.1, List.pairwise_singleton _ _, ?_⟩
        intro m hm b hb
        rw [List.mem_singleton] at hb
        subst hb
        exact not_samePair_of_memberExists_false members n1 n2 hcond.1 m hm _
      · intro m hm
        rw [List.mem_append, List.mem_singleton] at hm
        rcases hm with hm | hm
        · exact h.2 m hm
        · subst hm
          exact hcond.2
  · exact h

/-- Filtering preserves the member-pair invariant. -/
theorem filter_invariant (members : List TrussMember)
    (p : TrussMember → Bool) (h : membersInvariant members) :
    membersInvariant (members.filter p) := by
  constructor
  · exact h.1.sublist (List.filter_sublist members)
  · intro m hm
    exact h.2 m (List.mem_of_mem_filter hm)

/-- Mapping by an endpoint-id-preserving function preserves the
member-pair invariant. -/
theorem map_invariant (members : List TrussMember)
    (f : TrussMember → TrussMember)
    (hf : ∀ m, (f m).node1.id = m.node1.id ∧ (f m).node2.id = m.node2.id)
    (h : membersInvariant members) :
    membersInvariant (members.map f) := by
  constructor
  · refine h.1.map f ?_
    intro a b hab hsp
    apply hab
    rcases hsp with ⟨ha, hb⟩ | ⟨ha, hb⟩
    · rw [(hf a).1, (hf b).1] at ha
      rw [(hf a).2, (hf b).2] at hb
      exact Or.inl ⟨ha, hb⟩
    · rw [(hf a).1, (hf b).2] at ha
      rw [(hf a).2, (hf b).1] at hb
      exact Or.inr ⟨ha, hb⟩
  · intro m hm
    obtain ⟨a, ha, rfl⟩ := List.mem_map.mp hm
    rw [(hf a).1, (hf a).2]
    exact h.2 a ha

/-- The member list produced by updateNodePosition keeps the invariant. -/
theorem updateNodePosition_invariant (nodes : List TrussNode)
    (members : List TrussMember) (nodeId : String) (x y : ℝ)
    (h : membersInvariant members) :
    membersInvariant (updateNodePosition nodes members nodeId x y).2 := by
  simp only [updateNodePosition]
  split
  · exact h
  · next un hun =>
      have hunid : un.id = nodeId := by
        have := List.find?_some hun
        simpa using this
      apply map_invariant _ _ _ h
      intro m
      by_cases h1 : m.node1.id = nodeId
      · rw [if_pos h1]
        simp [hunid, h1]
      · rw [if_neg h1]
        by_cases h2 : m.node2.id = nodeId
        · rw [if_pos h2]
          simp [hunid, h2]
        · rw [if_neg h2]
          simp

/-- A single step preserves the member-pair invariant. -/
theorem step_membersInvariant {st st' : AppState} (hs : Step st st')
    (h : membersInvariant st.members) : membersInvariant st'.members := by
  cases hs with
  | setMode m => exact h
  | nodeClick node hmem =>
      rw [canvasNodeClick]
      cases st.mode with
      | select => exact h
      | delete => exact filter_invariant _ _ h
      | addMember =>
          cases hfn : st.firstNodeForMember with
          | none => exact h
          | some fn =>
              simp only
              split
              · exact addMember_invariant _ _ _ h
              · exact h
      | fixedSupport => exact h
      | hingedSupport => exact h
      | rollerSupport => exact h
      | applyLoad => exact h
      | addNode => exact h
  | memberClick member hmem =>
      rw [canvasMemberClick]
      cases st.mode with
      | select => exact h
      | delete => exact filter_invariant _ _ h
      | _ => exact h
  | emptyClick x y hm => exact h
  | nodeDragStart node hmem hm => exact h
  | nodeDrag node hmem hm x y =>
      exact updateNodePosition_invariant _ _ _ _ _ h
  | nodeContextMenu node hmem => exact h
  | nodeDblClickOther node hmem hm => exact h
  | coordSubmitAdd x y => exact h
  | coordSubmitEdit nodeId x y =>
      exact updateNodePosition_invariant _ _ _ _ _ h
  | setLoadSettings magnitude angle => exact h
  | calculate =>
      rw [homeCalculateWith]
      cases calculateForcesWith calculateTrussForces st.nodes st.members with
      | error msg => exact h
      | results r => exact h
  | clearAll => exact ⟨List.Pairwise.nil, by simp [homeClearAll]⟩
  | closeErrorModal => exact h

/-- C5: addMember silently no-ops on a self pair or an already-connected
unordered pair, and consequently in every reachable application state no
two members connect the same unordered pair of node ids and no member
connects a node to itself. -/
theorem c5_member_uniqueness :
    (∀ (members : List TrussMember) (n1 n2 : TrussNode),
      n1.id = n2.id ∨ memberExists members n1 n2 = true →
      addMember members n1 n2 = members) ∧
    (∀ (members : List TrussMember) (n1 n2 : TrussNode),
      memberExists members n1 n2 = true ↔
      ∃ m ∈ members, (m.node1.id = n1.id ∧ m.node2.id = n2.id) ∨
        (m.node1.id = n2.id ∧ m.node2.id = n1.id)) ∧
    (∀ st : AppState, Reachable st → membersInvariant st.members) := by
  refine ⟨addMember_noop, ?_, ?_⟩
  · intro members n1 n2
    rw [memberExists, List.any_eq_true]
    constructor
    · rintro ⟨m, hm, hb⟩
      simp only [Bool.or_eq_true, Bool.and_eq_true, decide_eq_true_eq] at hb
      exact ⟨m, hm, hb⟩
    · rintro ⟨m, hm, hb⟩
      refine ⟨m, hm, ?_⟩
      simp only [Bool.or_eq_true, Bool.and_eq_true, decide_eq_true_eq]
      exact hb
  · intro st hst
    induction hst with
    | init => exact ⟨List.Pairwise.nil, by simp [initState]⟩
    | step hr hs ih => exact step_membersInvariant hs ih

/-- Witness for C5: a self-loop add is skipped on the empty design, and
the initial state satisfies the invariant. -/
theorem c5_witness :
    addMember [] (TrussNode.mk "a" 0 0 none none)
      (TrussNode.mk "a" 0 0 none none) = [] ∧
    membersInvariant initState.members := by
  constructor
  · exact c5_member_uniqueness.1 [] _ _ (Or.inl rfl)
  · exact c5_member_uniqueness.2.2 initState Reachable.init

/-! ### C7: symmetry of the assembled global stiffness matrix -/

/-- The 4×4 member stiffness block is symmetric. -/
theorem memberK_symm (m : TrussMember) (i j : Fin 4) :
    memberK m i j = memberK m j i := by
  fin_cases i <;> fin_cases j <;> simp [memberK]

/-- Adding one member's block preserves symmetry of the global matrix. -/
theorem addMemberK_symm (nodes : List TrussNode) (K : ℤ → ℤ → ℝ)
    (m : TrussMember) (hK : ∀ p q, K p q = K q p) (p q : ℤ) :
    addMemberK nodes K m p q = addMemberK nodes K m q p := by
  rw [addMemberK, addMemberK, hK p q]
  congr 1
  rw [Finset.sum_comm]
  apply Finset.sum_congr rfl
  intro i _
  apply Finset.sum_congr rfl
  intro j _
  by_cases hc : memberIndices nodes m j = p ∧ memberIndices nodes m i = q
  · rw [if_pos hc, if_pos (And.intro hc.2 hc.1), memberK_symm]
  · rw [if_neg hc, if_neg (fun hc' => hc (And.intro hc'.2 hc'.1))]

/-- Folding member blocks over any symmetric start yields a symmetric
matrix. -/
theorem foldl_addMemberK_symm (nodes : List TrussNode)
    (ms : List TrussMember) :
    ∀ K : ℤ → ℤ → ℝ, (∀ p q, K p q = K q p) →
    ∀ p q, ms.foldl (addMemberK nodes) K p q =
      ms.foldl (addMemberK nodes) K q p := by
  induction ms with
  | nil => intro K hK p q; exact hK p q
  | cons m rest ih =>
      intro K hK p q
      exact ih (addMemberK nodes K m) (addMemberK_symm nodes K m hK) p q

/-- C7: the assembled global stiffness matrix is symmetric in its two DOF
indices (before any boundary reduction). -/
theorem c7_stiffness_symmetric (nodes : List TrussNode)
    (members : List TrussMember) (p q : ℤ) :
    assembleK nodes members p q = assembleK nodes members q p :=
  foldl_addMemberK_symm nodes members (fun _ _ => 0) (fun _ _ => rfl) p q

/-! ### C8: node-id uniqueness.  The ids are decimal renderings of
length-derived counters; this section characterises Nat.repr far enough
to settle the claim. -/

/-- The numeric value read back from a run of decimal digit characters. -/
def digitsVal (l : List Char) : ℕ :=
  l.foldl (fun a c => a * 10 + (c.toNat - 48)) 0

/-- The code point of a decimal digit character. -/
theorem digitChar_toNat {m : ℕ} (hm : m < 10) :
    (Nat.digitChar m).toNat = 48 + m := by
  interval_cases m <;> rfl

/-- toDigitsCore at base 10 with enough fuel prepends a non-empty digit
run whose value is the rendered number. -/
theorem toDigitsCore_spec (fuel : ℕ) : ∀ (n : ℕ) (acc : List Char),
    n < fuel →
    ∃ ds : List Char, Nat.toDigitsCore 10 fuel n acc = ds ++ acc ∧
      ds ≠ [] ∧ digitsVal ds = n := by
  induction fuel with
  | zero => intro n acc h; exact absurd h (Nat.not_lt_zero n)
  | succ fuel ih =>
      intro n acc hn
      by_cases h10 : n / 10 = 0
      · have hlt : n < 10 := by omega
        refine ⟨[Nat.digitChar (n % 10)], ?_, by simp, ?_⟩
        · simp [Nat.toDigitsCore, h10]
        · rw [digitsVal, List.foldl_cons, List.foldl_nil,
            digitChar_toNat (Nat.mod_lt n (by omega))]
          omega
      · have hfuel : n / 10 < fuel := by
          have h1 : n / 10 < n := Nat.div_lt_self (by omega) (by omega)
          omega
        obtain ⟨ds, hds, hne, hval⟩ :=
          ih (n / 10) (Nat.digitChar (n % 10) :: acc) hfuel
        refine ⟨ds ++ [Nat.digitChar (n % 10)], ?_, by simp, ?_⟩
        · rw [Nat.toDigitsCore]
          simp only [h10, if_false]
          rw [hds, List.append_assoc, List.singleton_append]
        · rw [digitsVal, List.foldl_append, List.foldl_cons, List.foldl_nil]
          rw [digitsVal] at hval
          rw [hval, digitChar_toNat (Nat.mod_lt n (by omega))]
          omega

/-- The decimal rendering used for ids is injective. -/
theorem repr_injective : Function.Injective Nat.repr := by
  intro m n h
  rw [Nat.repr, Nat.repr, Nat.toDigits, Nat.toDigits] at h
  obtain ⟨dm, hdm, _, hvm⟩ := toDigitsCore_spec (m + 1) m [] (Nat.lt_succ_self m)
  obtain ⟨dn, hdn, _, hvn⟩ := toDigitsCore_spec (n + 1) n [] (Nat.lt_succ_self n)
  rw [hdm, hdn] at h
  have h2 : dm ++ ([] : List Char) = dn ++ [] := congrArg String.data h
  rw [List.append_nil, List.append_nil] at h2
  rw [← hvm, ← hvn, h2]

/-- Node-id assignment is injective. -/
theorem nodeId_injective :
    Function.Injective (fun i : ℕ => "node-" ++ Nat.repr i) := by
  intro a b h
  have h2 : ("node-" ++ Nat.repr a).data = ("node-" ++ Nat.repr b).data :=
    congrArg String.data h
  rw [String.data_append, String.data_append] at h2
  have h3 : (Nat.repr a).data = (Nat.repr b).data :=
    List.append_cancel_left h2
  exact repr_injective (String.ext h3)

/-- The ids produced by a pure sequence of addNode operations are
node-(k+1), node-(k+2), ... continuing the current length k. -/
theorem foldl_addNode_ids (ps : List (ℝ × ℝ)) :
    ∀ ns : List TrussNode,
    (ps.foldl (fun acc p => addNode acc p.1 p.2) ns).map TrussNode.id =
      ns.map TrussNode.id ++
        (List.range' (ns.length + 1) ps.length).map
          (fun i => "node-" ++ Nat.repr i) := by
  induction ps with
  | nil => intro ns; simp
  | cons p ps ih =>
      intro ns
      rw [List.foldl_cons, ih (addNode ns p.1 p.2)]
      rw [List.length_cons, List.range'_succ]
      have hlen : (addNode ns p.1 p.2).length = ns.length + 1 := by
        simp [addNode]
      have hmap : (addNode ns p.1 p.2).map TrussNode.id =
          ns.map TrussNode.id ++ ["node-" ++ Nat.repr (ns.length + 1)] := by
        simp [addNode]
      rw [hlen, hmap, List.map_cons, List.append_assoc, List.singleton_append]

/-- C8 counterexample: add two nodes, delete node-1, add again — the new
node reuses id node-2, so the node ids are not pairwise distinct. -/
theorem c8_counterexample :
    (addNode (deleteNodeNodes (addNode (addNode [] 0 0) 100 0) "node-1")
        50 50).map TrussNode.id = ["node-2", "node-2"] ∧
    ¬ ((addNode (deleteNodeNodes (addNode (addNode [] 0 0) 100 0) "node-1")
        50 50).map TrussNode.id).Nodup ∧
    ∃ st : AppState, Reachable st ∧
      st.nodes.map TrussNode.id = ["node-2", "node-2"] := by
  refine ⟨rfl, ?_, ?_⟩
  · intro h
    rw [show (addNode (deleteNodeNodes (addNode (addNode [] 0 0) 100 0)
        "node-1") 50 50).map TrussNode.id = ["node-2", "node-2"] from rfl] at h
    simp at h
  · have q1 : Reachable ⟨Mode.addNode, [], [], none, none, none, none,
        ⟨10, 270⟩, none⟩ :=
      Reachable.step Reachable.init (Step.setMode initState Mode.addNode)
    have q2 : Reachable ⟨Mode.addNode, [TrussNode.mk "node-1" 0 0 none none],
        [], none, none, none, none, ⟨10, 270⟩, none⟩ :=
      Reachable.step q1 (Step.emptyClick _ 0 0 rfl)
    have q3 : Reachable ⟨Mode.addNode, [TrussNode.mk "node-1" 0 0 none none,
        TrussNode.mk "node-2" 100 0 none none],
        [], none, none, none, none, ⟨10, 270⟩, none⟩ :=
      Reachable.step q2 (Step.emptyClick _ 100 0 rfl)
    have q4 : Reachable ⟨Mode.delete, [TrussNode.mk "node-1" 0 0 none none,
        TrussNode.mk "node-2" 100 0 none none],
        [], none, none, none, none, ⟨10, 270⟩, none⟩ :=
      Reachable.step q3 (Step.setMode _ Mode.delete)
    have q5 : Reachable ⟨Mode.delete, [TrussNode.mk "node-2" 100 0 none none],
        [], none, none, none, none, ⟨10, 270⟩, none⟩ :=
      Reachable.step q4 (Step.nodeClick _ (TrussNode.mk "node-1" 0 0 none none)
        (by simp))
    have q6 : Reachable ⟨Mode.addNode, [TrussNode.mk "node-2" 100 0 none none],
        [], none, none, none, none, ⟨10, 270⟩, none⟩ :=
      Reachable.step q5 (Step.setMode _ Mode.addNode)
    have q7 : Reachable ⟨Mode.addNode, [TrussNode.mk "node-2" 100 0 none none,
        TrussNode.mk "node-2" 50 50 none none],
        [], none, none, none, none, ⟨10, 270⟩, none⟩ :=
      Reachable.step q6 (Step.emptyClick _ 50 50 rfl)
    exact ⟨_, q7, rfl⟩

/-- C8 amended: across any sequence of add-node operations alone (no
deletions), the assigned ids node-(length+1) are pairwise distinct. -/
theorem c8_amended_add_only_nodup (ps : List (ℝ × ℝ)) :
    ((ps.foldl (fun acc p => addNode acc p.1 p.2) []).map TrussNode.id).Nodup := by
  rw [foldl_addNode_ids ps []]
  simp only [List.map_nil, List.nil_append, List.length_nil, Nat.zero_add]
  exact (List.nodup_range' 1 ps.length).map nodeId_injective

/-! ### C10: nodes with a fixed support -/

/-- The per-node contribution to reactionCount. -/
def supportReactions (n : TrussNode) : ℕ :=
  match n.support with
  | some Support.hinged => 2
  | some Support.roller => 1
  | _ => 0

/-- reactionCount is the sum of the per-node contributions. -/
theorem reactionCount_eq_sum (nodes : List TrussNode) :
    reactionCount nodes = (nodes.map supportReactions).sum := by
  rw [reactionCount]
  have hstep : (fun (acc : ℕ) (node : TrussNode) =>
      match node.support with
      | some Support.hinged => acc + 2
      | some Support.roller => acc + 1
      | _ => acc) = fun acc node => acc + supportReactions node := by
    funext acc node
    rw [supportReactions]
    rcases node.support with _ | s
    · rfl
    · cases s <;> rfl
  rw [hstep, List.sum_eq_foldl, List.foldl_map]

/-- A fixed support contributes exactly as much to reactionCount as no
support at all: nothing. -/
theorem reactionCount_fixed_eq_none (nodes : List TrussNode) (nodeId : String) :
    reactionCount (setSupportToNode nodes nodeId (some Support.fixed)) =
      reactionCount (setSupportToNode nodes nodeId none) := by
  rw [reactionCount_eq_sum, reactionCount_eq_sum, setSupportToNode,
    setSupportToNode, List.map_map, List.map_map]
  congr 1
  apply List.map_congr_left
  intro n _
  simp only [Function.comp]
  by_cases hid : n.id = nodeId
  · rw [if_pos hid, if_pos hid]
    rfl
  · rw [if_neg hid, if_neg hid]

/-- The DOFs of a node at position i with fixed (or no) support are both
emitted into the free list. -/
theorem mem_freeDOFAux_fixed (nodes : List TrussNode) :
    ∀ (i k : ℕ) (n : TrussNode), nodes[i]? = some n →
    n.support = some Support.fixed →
    (2 * ((k : ℤ) + i) ∈ freeDOFAux k nodes ∧
     2 * ((k : ℤ) + i) + 1 ∈ freeDOFAux k nodes) := by
  induction nodes with
  | nil => intro i k n h; simp at h
  | cons m rest ih =>
      intro i k n h hfix
      cases i with
      | zero =>
          rw [List.getElem?_cons_zero, Option.some.injEq] at h
          subst h
          rw [freeDOFAux, hfix]
          constructor
          · apply List.mem_append_left
            simp
          · apply List.mem_append_left
            simp
      | succ i' =>
          rw [List.getElem?_cons_succ] at h
          have := ih i' (k + 1) n h hfix
          rw [freeDOFAux]
          have harith : ((k : ℤ) + 1) + (i' : ℤ) = (k : ℤ) + (i' + 1 : ℕ) := by
            push_cast
            ring
          constructor
          · apply List.mem_append_right
            rw [← harith]
            exact_mod_cast this.1
          · apply List.mem_append_right
            rw [← harith]
            exact_mod_cast this.2

/-- Every entry of the fixed-DOF list comes from a hinged node (both
DOFs) or a roller node (odd DOF). -/
theorem fixedDOFAux_mem_spec (nodes : List TrussNode) :
    ∀ (k : ℕ) (p : ℤ), p ∈ fixedDOFAux k nodes →
    ∃ (j : ℕ) (nj : TrussNode), nodes[j]? = some nj ∧
      ((p = 2 * ((k : ℤ) + j) ∧ nj.support = some Support.hinged) ∨
       (p = 2 * ((k : ℤ) + j) + 1 ∧
         (nj.support = some Support.hinged ∨ nj.support = some Support.roller))) := by
  induction nodes with
  | nil => intro k p h; simp [fixedDOFAux] at h
  | cons m rest ih =>
      intro k p h
      rw [fixedDOFAux, List.mem_append] at h
      rcases h with h | h
      · refine ⟨0, m, List.getElem?_cons_zero, ?_⟩
        cases hs : m.support with
        | none => rw [hs] at h; simp at h
        | some s =>
            cases s with
            | fixed => rw [hs] at h; simp at h
            | hinged =>
                rw [hs] at h
                rw [List.mem_cons, List.mem_singleton] at h
                rcases h with h | h
                · refine Or.inl ⟨?_, rfl⟩
                  rw [h]
                  push_cast
                  ring
                · refine Or.inr ⟨?_, Or.inl rfl⟩
                  rw [h]
                  push_cast
                  ring
            | roller =>
                rw [hs] at h
                rw [List.mem_singleton] at h
                refine Or.inr ⟨?_, Or.inr rfl⟩
                rw [h]
                push_cast
                ring
      · obtain ⟨j, nj, hj, hspec⟩ := ih (k + 1) p h
        refine ⟨j + 1, nj, by rwa [List.getElem?_cons_succ], ?_⟩
        have harith : ((k : ℤ) + 1) + (j : ℤ) = (k : ℤ) + ((j : ℕ) + 1 : ℕ) := by
          push_cast
          ring
        rcases hspec with ⟨hp, hs⟩ | ⟨hp, hs⟩
        · refine Or.inl ⟨?_, hs⟩
          rw [hp]
          push_cast
          ring
        · refine Or.inr ⟨?_, hs⟩
          rw [hp]
          push_cast
          ring

/-- Positions of a Nodup list are determined by their element. -/
theorem nodup_getElem?_unique {α : Type} {l : List α} (h : l.Nodup)
    {i j : ℕ} {a : α} (hi : l[i]? = some a) (hj : l[j]? = some a) : i = j := by
  by_contra hne
  have hilen : i < l.length := by
    by_contra hh
    rw [List.getElem?_eq_none (Nat.le_of_not_lt hh)] at hi
    cases hi
  have hjlen : j < l.length := by
    by_contra hh
    rw [List.getElem?_eq_none (Nat.le_of_not_lt hh)] at hj
    cases hj
  rcases Nat.lt_or_ge i j with hlt | hge
  · exact (List.nodup_iff_getElem?_ne_getElem?.mp h i j hlt hjlen)
      (hi.trans hj.symm)
  · have hlt : j < i := by omega
    exact (List.nodup_iff_getElem?_ne_getElem?.mp h j i hlt hilen)
      (hj.trans hi.symm)

/-- A fixed-support node at position i has neither of its DOFs in the
fixed list. -/
theorem not_mem_fixedDOF_of_fixed (nodes : List TrussNode) (i : ℕ)
    (n : TrussNode) (hi : nodes[i]? = some n)
    (hfix : n.support = some Support.fixed) :
    2 * (i : ℤ) ∉ fixedDOF nodes ∧ 2 * (i : ℤ) + 1 ∉ fixedDOF nodes := by
  constructor
  · intro hmem
    obtain ⟨j, nj, hj, hspec⟩ := fixedDOFAux_mem_spec nodes 0 _ hmem
    rcases hspec with ⟨hp, hs⟩ | ⟨hp, hs⟩
    · have hij : i = j := by omega
      subst hij
      rw [hi, Option.some.injEq] at hj
      subst hj
      rw [hfix] at hs
      cases hs
    · omega
  · intro hmem
    obtain ⟨j, nj, hj, hspec⟩ := fixedDOFAux_mem_spec nodes 0 _ hmem
    rcases hspec with ⟨hp, hs⟩ | ⟨hp, hs⟩
    · omega
    · have hij : i = j := by omega
      subst hij
      rw [hi, Option.some.injEq] at hj
      subst hj
      rw [hfix] at hs
      rcases hs with hs | hs <;> cases hs

/-- No entry of the reaction map carries a key absent from the walked
node suffix. -/
theorem reactionsAux_no_key (nodes : List TrussNode)
    (members : List TrussMember) :
    ∀ (rest : List TrussNode) (k : ℕ) (nid : String),
    (∀ m' ∈ rest, m'.id ≠ nid) →
    (reactionsAux nodes members k rest).filterMap
      (fun p => if p.1 = nid then some p.2 else none) = [] := by
  intro rest
  induction rest with
  | nil => intro k nid h; rfl
  | cons m rest' ih =>
      intro k nid h
      rw [reactionsAux, List.filterMap_append]
      rw [ih (k + 1) nid (fun m' hm' => h m' (List.mem_cons_of_mem m hm'))]
      rw [List.append_nil]
      cases hs : m.support.isSome with
      | false => simp [hs]
      | true =>
          simp only [hs, if_true]
          rw [List.filterMap_cons]
          rw [if_neg (h m (List.mem_cons_self m rest'))]
          rfl

/-- The reaction map entry of a supported node whose id occurs at a
unique position: last-write lookup returns its two reaction entries. -/
theorem reactionsAux_lookup (nodes : List TrussNode)
    (members : List TrussMember) :
    ∀ (rest : List TrussNode) (k j : ℕ) (n : TrussNode),
    rest[j]? = some n → n.support.isSome →
    ((rest.map TrussNode.id).Nodup) →
    lookupLast (reactionsAux nodes members k rest) n.id =
      some (ReactionForces.mk (reactionEntryX nodes members (k + j))
        (reactionEntryY nodes members (k + j))) := by
  intro rest
  induction rest with
  | nil => intro k j n h; simp at h
  | cons m rest' ih =>
      intro k j n hj hsup hnd
      rw [List.map_cons, List.nodup_cons] at hnd
      cases j with
      | zero =>
          rw [List.getElem?_cons_zero, Option.some.injEq] at hj
          subst hj
          rw [reactionsAux, lookupLast, List.filterMap_append]
          have hrest : (reactionsAux nodes members (k + 1) rest').filterMap
              (fun p => if p.1 = m.id then some p.2 else none) = [] := by
            apply reactionsAux_no_key
            intro m' hm' heq
            exact hnd.1 (heq ▸ List.mem_map_of_mem TrussNode.id hm')
          rw [hrest, List.append_nil]
          rw [hsup, if_pos rfl, List.filterMap_cons, if_pos rfl]
          rw [List.filterMap_nil]
          rw [Nat.add_zero]
          rfl
      | succ j' =>
          rw [List.getElem?_cons_succ] at hj
          have hmid : m.id ≠ n.id := by
            intro heq
            have : n.id ∈ rest'.map TrussNode.id := by
              rw [List.mem_map]
              exact ⟨n, List.getElem?_mem hj, rfl⟩
            exact hnd.1 (heq ▸ this)
          rw [reactionsAux, lookupLast, List.filterMap_append]
          have hhead : ((if m.support.isSome then
              [(m.id, ReactionForces.mk (reactionEntryX nodes members k)
                (reactionEntryY nodes members k))] else []).filterMap
              (fun p => if p.1 = n.id then some p.2 else none)) = [] := by
            cases hs : m.support.isSome with
            | false => simp [hs]
            | true =>
                simp only [hs, if_true]
                rw [List.filterMap_cons, if_neg hmid, List.filterMap_nil]
          rw [hhead, List.nil_append]
          have := ih (k + 1) j' n hj hsup hnd.2
          rw [lookupLast] at this
          rw [show k + 1 + j' = k + (j' + 1) by omega] at this
          exact this

/-- C10: a node whose support was set to fixed contributes zero reaction
components to the statistics, the engine leaves both of its DOFs free
(in the free-DOF list, not in the fixed-DOF list), and the engine still
reports it in the reaction map with reactions (0, 0). -/
theorem c10_fixed_support (nodes : List TrussNode)
    (members : List TrussMember) (nodeId : String) (i : ℕ) (n : TrussNode)
    (hi : nodes[i]? = some n) (hfix : n.support = some Support.fixed)
    (hnd : (nodes.map TrussNode.id).Nodup) :
    calculateStats (setSupportToNode nodes nodeId (some Support.fixed))
        members =
      calculateStats (setSupportToNode nodes nodeId none) members ∧
    (2 * (i : ℤ) ∈ freeDOF nodes ∧ 2 * (i : ℤ) + 1 ∈ freeDOF nodes) ∧
    (2 * (i : ℤ) ∉ fixedDOF nodes ∧ 2 * (i : ℤ) + 1 ∉ fixedDOF nodes) ∧
    lookupLast (calculateTrussForces nodes members).reactionForces n.id =
      some (ReactionForces.mk 0 0) := by
  have hnotmem := not_mem_fixedDOF_of_fixed nodes i n hi hfix
  refine ⟨?_, ?_, hnotmem, ?_⟩
  · have hrc := reactionCount_fixed_eq_none nodes nodeId
    have hlen : ∀ s : Option Support,
        (setSupportToNode nodes nodeId s).length = nodes.length := by
      intro s
      rw [setSupportToNode, List.length_map]
    rw [calculateStats, calculateStats, hrc, hlen, hlen]
  · have := mem_freeDOFAux_fixed nodes i 0 n hi hfix
    rw [freeDOF]
    constructor
    · have h1 := this.1
      rw [show ((0 : ℕ) : ℤ) + (i : ℤ) = (i : ℤ) by ring] at h1
      exact h1
    · have h2 := this.2
      rw [show ((0 : ℕ) : ℤ) + (i : ℤ) = (i : ℤ) by ring] at h2
      exact h2
  · have hx : reactionEntryX nodes members i = 0 := by
      rw [reactionEntryX, if_neg]
      intro hc
      apply hnotmem.1
      rw [fixedDOF]
      rw [List.contains_eq_any_beq] at hc
      rw [List.any_eq_true] at hc
      obtain ⟨p, hp, hbeq⟩ := hc
      rw [beq_iff_eq] at hbeq
      rw [hbeq]
      exact hp
    have hy : reactionEntryY nodes members i = 0 := by
      rw [reactionEntryY, if_neg]
      intro hc
      apply hnotmem.2
      rw [fixedDOF]
      rw [List.contains_eq_any_beq] at hc
      rw [List.any_eq_true] at hc
      obtain ⟨p, hp, hbeq⟩ := hc
      rw [beq_iff_eq] at hbeq
      rw [hbeq]
      exact hp
    have := reactionsAux_lookup nodes members nodes 0 i n hi
      (by rw [hfix]; rfl) hnd
    rw [Nat.zero_add, hx, hy] at this
    rw [calculateTrussForces]
    exact this

/-- Witness for C10 on a single fixed-support node. -/
theorem c10_witness :
    lookupLast (calculateTrussForces [TrussNode.mk "a" 0 0
        (some Support.fixed) none] []).reactionForces "a" =
      some (ReactionForces.mk 0 0) := by
  exact (c10_fixed_support [TrussNode.mk "a" 0 0 (some Support.fixed) none]
    [] "a" 0 (TrussNode.mk "a" 0 0 (some Support.fixed) none)
    rfl rfl (by simp)).2.2.2

/-! ### C4: the endpoint-existence invariant and the stale pending
first node -/

/-- C4: a reachable UI sequence that breaks the endpoint-existence
invariant.  Add node-1 and node-2, arm node-1 as the pending first node
of a member, delete node-1 (deleteNode does not clear the pending
node), switch back to add-member mode and click node-2: addMember is
invoked with the stale snapshot of node-1 and creates a member whose
node1 endpoint no longer exists in the node list. -/
theorem c4_stale_pending_node_breaks_invariant :
    ∃ st : AppState, Reachable st ∧ ¬ endpointsValid st.nodes st.members := by
  have r1 : Reachable ⟨Mode.addNode, [], [], none, none, none, none,
      ⟨10, 270⟩, none⟩ :=
    Reachable.step Reachable.init (Step.setMode initState Mode.addNode)
  have r2 : Reachable ⟨Mode.addNode, [TrussNode.mk "node-1" 0 0 none none],
      [], none, none, none, none, ⟨10, 270⟩, none⟩ :=
    Reachable.step r1 (Step.emptyClick _ 0 0 rfl)
  have r3 : Reachable ⟨Mode.addNode, [TrussNode.mk "node-1" 0 0 none none,
      TrussNode.mk "node-2" 400 0 none none],
      [], none, none, none, none, ⟨10, 270⟩, none⟩ :=
    Reachable.step r2 (Step.emptyClick _ 400 0 rfl)
  have r4 : Reachable ⟨Mode.addMember, [TrussNode.mk "node-1" 0 0 none none,
      TrussNode.mk "node-2" 400 0 none none],
      [], none, none, none, none, ⟨10, 270⟩, none⟩ :=
    Reachable.step r3 (Step.setMode _ Mode.addMember)
  have r5 : Reachable ⟨Mode.addMember, [TrussNode.mk "node-1" 0 0 none none,
      TrussNode.mk "node-2" 400 0 none none],
      [], none, none, some (TrussNode.mk "node-1" 0 0 none none), none,
      ⟨10, 270⟩, none⟩ :=
    Reachable.step r4 (Step.nodeClick _ (TrussNode.mk "node-1" 0 0 none none)
      (by simp))
  have r6 : Reachable ⟨Mode.delete, [TrussNode.mk "node-1" 0 0 none none,
      TrussNode.mk "node-2" 400 0 none none],
      [], none, none, some (TrussNode.mk "node-1" 0 0 none none), none,
      ⟨10, 270⟩, none⟩ :=
    Reachable.step r5 (Step.setMode _ Mode.delete)
  have r7 : Reachable ⟨Mode.delete, [TrussNode.mk "node-2" 400 0 none none],
      [], none, none, some (TrussNode.mk "node-1" 0 0 none none), none,
      ⟨10, 270⟩, none⟩ :=
    Reachable.step r6 (Step.nodeClick _ (TrussNode.mk "node-1" 0 0 none none)
      (by simp))
  have r8 : Reachable ⟨Mode.addMember, [TrussNode.mk "node-2" 400 0 none none],
      [], none, none, some (TrussNode.mk "node-1" 0 0 none none), none,
      ⟨10, 270⟩, none⟩ :=
    Reachable.step r7 (Step.setMode _ Mode.addMember)
  have r9 : Reachable ⟨Mode.addMember, [TrussNode.mk "node-2" 400 0 none none],
      [TrussMember.mk "member-1" (TrussNode.mk "node-1" 0 0 none none)
        (TrussNode.mk "node-2" 400 0 none none)],
      none, none, none, none, ⟨10, 270⟩, none⟩ :=
    Reachable.step r8 (Step.nodeClick _ (TrussNode.mk "node-2" 400 0 none none)
      (by simp))
  refine ⟨_, r9, ?_⟩
  intro h
  obtain ⟨⟨n, hn, hid⟩, _⟩ := h (TrussMember.mk "member-1"
    (TrussNode.mk "node-1" 0 0 none none)
    (TrussNode.mk "node-2" 400 0 none none)) (List.mem_singleton.mpr rfl)
  rw [List.mem_singleton] at hn
  subst hn
  exact absurd hid (by simp)

/-- Witness for C9 on a concrete one-node design. -/
theorem c9_witness :
    openEditInitialValues (TrussNode.mk "node-1" 300 (-150) none none) =
      (3, 1.5) := by
  exact (c9_coordinate_round_trip [TrussNode.mk "node-1" 300 (-150) none none]
    [] (TrussNode.mk "node-1" 300 (-150) none none)
    (List.mem_singleton.mpr rfl) rfl rfl).1


/-! ### C1: the worked right-triangle truss -/


noncomputable section

def nodeA1 : TrussNode := TrussNode.mk "A" 0 0 (some Support.hinged) none
def nodeB1 : TrussNode := TrussNode.mk "B" 400 0 (some Support.roller) none
def nodeC1 : TrussNode := TrussNode.mk "C" 200 (-200) none (some (Load.mk 0 10))
def c1Nodes : List TrussNode := [nodeA1, nodeB1, nodeC1]
def c1Members : List TrussMember :=
  [TrussMember.mk "AB" nodeA1 nodeB1, TrussMember.mk "BC" nodeB1 nodeC1,
   TrussMember.mk "AC" nodeA1 nodeC1]

end

example : findIndex c1Nodes "A" = 0 := by rfl
example : findIndex c1Nodes "B" = 1 := by rfl
example : findIndex c1Nodes "C" = 2 := by rfl

example : freeDOF c1Nodes = [2, 4, 5] := by rfl
example : fixedDOF c1Nodes = [0, 1, 3] := by rfl

example : buildF c1Nodes 1 = 0 := by
  norm_num [buildF, buildFAux, c1Nodes, nodeA1, nodeB1, nodeC1]

example : buildF c1Nodes 5 = 10 := by
  norm_num [buildF, buildFAux, c1Nodes, nodeA1, nodeB1, nodeC1]

example : memberIndices c1Nodes (TrussMember.mk "AB" nodeA1 nodeB1) = ![0, 1, 2, 3] := by
  rfl

example : memberIndices c1Nodes (TrussMember.mk "BC" nodeB1 nodeC1) = ![2, 3, 4, 5] := by
  rfl



theorem hcABx : Real.cos (calculateAngle nodeA1 nodeB1) = 1 := by
  rw [calculateAngle, nodeA1, nodeB1]
  simp only
  have hne : (⟨400 - 0, 0 - 0⟩ : ℂ) ≠ 0 := by
    simp [Complex.ext_iff]
  rw [Complex.cos_arg hne]
  rw [show Complex.abs ⟨400 - 0, 0 - 0⟩ = 400 by
    rw [Complex.abs_apply, Complex.normSq_mk]
    rw [show ((400:ℝ) - 0) * (400 - 0) + (0 - 0) * (0 - 0) = 400^2 by norm_num]
    rw [Real.sqrt_sq (by norm_num)]]
  norm_num

theorem hsABx : Real.sin (calculateAngle nodeA1 nodeB1) = 0 := by
  rw [calculateAngle, nodeA1, nodeB1]
  simp only
  rw [Complex.sin_arg]
  norm_num

theorem hlABx : calculateLength nodeA1 nodeB1 = 400 := by
  rw [calculateLength, nodeA1, nodeB1]
  simp only
  rw [show ((400:ℝ) - 0) * (400 - 0) + (0 - 0) * (0 - 0) = 400^2 by norm_num]
  rw [Real.sqrt_sq (by norm_num)]

example :
    (∑ i : Fin 4, ∑ j : Fin 4,
      if memberIndices c1Nodes (TrussMember.mk "AB" nodeA1 nodeB1) i = 2 ∧
         memberIndices c1Nodes (TrussMember.mk "AB" nodeA1 nodeB1) j = 2 then
        memberK (TrussMember.mk "AB" nodeA1 nodeB1) i j else 0)
    = memberK (TrussMember.mk "AB" nodeA1 nodeB1) 2 2 := by
  rw [show memberIndices c1Nodes (TrussMember.mk "AB" nodeA1 nodeB1) =
    ![0, 1, 2, 3] from rfl]
  simp [Fin.sum_univ_four]

example : memberK (TrussMember.mk "AB" nodeA1 nodeB1) 2 2 = 500000 := by
  simp only [memberK]
  rw [hcABx, hsABx, hlABx, elasticModulus, sectionArea]
  norm_num [Matrix.cons_val_zero, Matrix.cons_val_one, Matrix.head_cons,
    Matrix.cons_val_two, Matrix.cons_val_three, Matrix.vecHead, Matrix.vecTail,
    Function.comp]



theorem habsBCx : Complex.abs ⟨200 - 400, -200 - 0⟩ = Real.sqrt 80000 := by
  rw [Complex.abs_apply, Complex.normSq_mk]
  norm_num

theorem hcBCx : Real.cos (calculateAngle nodeB1 nodeC1) =
    -200 / Real.sqrt 80000 := by
  rw [calculateAngle, nodeB1, nodeC1]
  simp only
  have hne : (⟨200 - 400, -200 - 0⟩ : ℂ) ≠ 0 := by
    simp [Complex.ext_iff]
  rw [Complex.cos_arg hne, habsBCx]
  norm_num

theorem hsBCx : Real.sin (calculateAngle nodeB1 nodeC1) =
    -200 / Real.sqrt 80000 := by
  rw [calculateAngle, nodeB1, nodeC1]
  simp only
  rw [Complex.sin_arg, habsBCx]
  norm_num

theorem hlBCx : calculateLength nodeB1 nodeC1 = Real.sqrt 80000 := by
  rw [calculateLength, nodeB1, nodeC1]
  simp only
  norm_num

theorem hscale (c1 c2 : ℝ) :
    200000 * 1000 / Real.sqrt 80000 * (c1 / Real.sqrt 80000) *
      (c2 / Real.sqrt 80000) = c1 * c2 * Real.sqrt 80000 / 32 := by
  have ht2 : Real.sqrt 80000 ^ 2 = 80000 := Real.sq_sqrt (by norm_num)
  have htne : Real.sqrt 80000 ≠ 0 :=
    ne_of_gt (Real.sqrt_pos.mpr (by norm_num))
  field_simp
  linear_combination (-80000 * c1 * c2) * ht2

theorem habsACx : Complex.abs ⟨200 - 0, -200 - 0⟩ = Real.sqrt 80000 := by
  rw [Complex.abs_apply, Complex.normSq_mk]
  norm_num

theorem hcACx : Real.cos (calculateAngle nodeA1 nodeC1) =
    200 / Real.sqrt 80000 := by
  rw [calculateAngle, nodeA1, nodeC1]
  simp only
  have hne : (⟨200 - 0, -200 - 0⟩ : ℂ) ≠ 0 := by
    simp [Complex.ext_iff]
  rw [Complex.cos_arg hne, habsACx]
  norm_num

theorem hsACx : Real.sin (calculateAngle nodeA1 nodeC1) =
    -200 / Real.sqrt 80000 := by
  rw [calculateAngle, nodeA1, nodeC1]
  simp only
  rw [Complex.sin_arg, habsACx]
  norm_num

theorem hlACx : calculateLength nodeA1 nodeC1 = Real.sqrt 80000 := by
  rw [calculateLength, nodeA1, nodeC1]
  simp only
  norm_num

theorem hK12x : assembleK c1Nodes c1Members 1 2 = 0 := by
  simp only [assembleK, c1Members, List.foldl_cons, List.foldl_nil, addMemberK]
  simp only [show memberIndices c1Nodes (TrussMember.mk "AB" nodeA1 nodeB1) =
      ![0, 1, 2, 3] from rfl,
    show memberIndices c1Nodes (TrussMember.mk "BC" nodeB1 nodeC1) =
      ![2, 3, 4, 5] from rfl,
    show memberIndices c1Nodes (TrussMember.mk "AC" nodeA1 nodeC1) =
      ![0, 1, 4, 5] from rfl]
  simp only [Fin.sum_univ_four, Matrix.cons_val_zero, Matrix.cons_val_one,
    Matrix.head_cons, Matrix.cons_val_two, Matrix.cons_val_three,
    Matrix.cons_val_succ, Matrix.vecHead, Matrix.vecTail, Function.comp]
  norm_num
  simp only [memberK, Matrix.cons_val_zero, Matrix.cons_val_one,
    Matrix.head_cons, Matrix.cons_val_two, Matrix.cons_val_three,
    Matrix.cons_val_succ, Matrix.vecHead, Matrix.vecTail, Function.comp]
  simp only [hcABx, hsABx, hlABx, hcBCx, hsBCx, hlBCx, hcACx, hsACx, hlACx,
    elasticModulus, sectionArea, hscale]
  ring

theorem hK14x : assembleK c1Nodes c1Members 1 4 = 1250 * Real.sqrt 80000 := by
  simp only [assembleK, c1Members, List.foldl_cons, List.foldl_nil, addMemberK]
  simp only [show memberIndices c1Nodes (TrussMember.mk "AB" nodeA1 nodeB1) =
      ![0, 1, 2, 3] from rfl,
    show memberIndices c1Nodes (TrussMember.mk "BC" nodeB1 nodeC1) =
      ![2, 3, 4, 5] from rfl,
    show memberIndices c1Nodes (TrussMember.mk "AC" nodeA1 nodeC1) =
      ![0, 1, 4, 5] from rfl]
  simp only [Fin.sum_univ_four, Matrix.cons_val_zero, Matrix.cons_val_one,
    Matrix.head_cons, Matrix.cons_val_two, Matrix.cons_val_three,
    Matrix.cons_val_succ, Matrix.vecHead, Matrix.vecTail, Function.comp]
  norm_num
  simp only [memberK, Matrix.cons_val_zero, Matrix.cons_val_one,
    Matrix.head_cons, Matrix.cons_val_two, Matrix.cons_val_three,
    Matrix.cons_val_succ, Matrix.vecHead, Matrix.vecTail, Function.comp]
  simp only [hcABx, hsABx, hlABx, hcBCx, hsBCx, hlBCx, hcACx, hsACx, hlACx,
    elasticModulus, sectionArea, hscale]
  ring

theorem hK15x : assembleK c1Nodes c1Members 1 5 = -(1250 * Real.sqrt 80000) := by
  simp only [assembleK, c1Members, List.foldl_cons, List.foldl_nil, addMemberK]
  simp only [show memberIndices c1Nodes (TrussMember.mk "AB" nodeA1 nodeB1) =
      ![0, 1, 2, 3] from rfl,
    show memberIndices c1Nodes (TrussMember.mk "BC" nodeB1 nodeC1) =
      ![2, 3, 4, 5] from rfl,
    show memberIndices c1Nodes (TrussMember.mk "AC" nodeA1 nodeC1) =
      ![0, 1, 4, 5] from rfl]
  simp only [Fin.sum_univ_four, Matrix.cons_val_zero, Matrix.cons_val_one,
    Matrix.head_cons, Matrix.cons_val_two, Matrix.cons_val_three,
    Matrix.cons_val_succ, Matrix.vecHead, Matrix.vecTail, Function.comp]
  norm_num
  simp only [memberK, Matrix.cons_val_zero, Matrix.cons_val_one,
    Matrix.head_cons, Matrix.cons_val_two, Matrix.cons_val_three,
    Matrix.cons_val_succ, Matrix.vecHead, Matrix.vecTail, Function.comp]
  simp only [hcABx, hsABx, hlABx, hcBCx, hsBCx, hlBCx, hcACx, hsACx, hlACx,
    elasticModulus, sectionArea, hscale]
  ring

theorem hK32x : assembleK c1Nodes c1Members 3 2 = 1250 * Real.sqrt 80000 := by
  simp only [assembleK, c1Members, List.foldl_cons, List.foldl_nil, addMemberK]
  simp only [show memberIndices c1Nodes (TrussMember.mk "AB" nodeA1 nodeB1) =
      ![0, 1, 2, 3] from rfl,
    show memberIndices c1Nodes (TrussMember.mk "BC" nodeB1 nodeC1) =
      ![2, 3, 4, 5] from rfl,
    show memberIndices c1Nodes (TrussMember.mk "AC" nodeA1 nodeC1) =
      ![0, 1, 4, 5] from rfl]
  simp only [Fin.sum_univ_four, Matrix.cons_val_zero, Matrix.cons_val_one,
    Matrix.head_cons, Matrix.cons_val_two, Matrix.cons_val_three,
    Matrix.cons_val_succ, Matrix.vecHead, Matrix.vecTail, Function.comp]
  norm_num
  simp only [memberK, Matrix.cons_val_zero, Matrix.cons_val_one,
    Matrix.head_cons, Matrix.cons_val_two, Matrix.cons_val_three,
    Matrix.cons_val_succ, Matrix.vecHead, Matrix.vecTail, Function.comp]
  simp only [hcABx, hsABx, hlABx, hcBCx, hsBCx, hlBCx, hcACx, hsACx, hlACx,
    elasticModulus, sectionArea, hscale]
  ring

theorem hK34x : assembleK c1Nodes c1Members 3 4 = -(1250 * Real.sqrt 80000) := by
  simp only [assembleK, c1Members, List.foldl_cons, List.foldl_nil, addMemberK]
  simp only [show memberIndices c1Nodes (TrussMember.mk "AB" nodeA1 nodeB1) =
      ![0, 1, 2, 3] from rfl,
    show memberIndices c1Nodes (TrussMember.mk "BC" nodeB1 nodeC1) =
      ![2, 3, 4, 5] from rfl,
    show memberIndices c1Nodes (TrussMember.mk "AC" nodeA1 nodeC1) =
      ![0, 1, 4, 5] from rfl]
  simp only [Fin.sum_univ_four, Matrix.cons_val_zero, Matrix.cons_val_one,
    Matrix.head_cons, Matrix.cons_val_two, Matrix.cons_val_three,
    Matrix.cons_val_succ, Matrix.vecHead, Matrix.vecTail, Function.comp]
  norm_num
  simp only [memberK, Matrix.cons_val_zero, Matrix.cons_val_one,
    Matrix.head_cons, Matrix.cons_val_two, Matrix.cons_val_three,
    Matrix.cons_val_succ, Matrix.vecHead, Matrix.vecTail, Function.comp]
  simp only [hcABx, hsABx, hlABx, hcBCx, hsBCx, hlBCx, hcACx, hsACx, hlACx,
    elasticModulus, sectionArea, hscale]
  ring

theorem hK35x : assembleK c1Nodes c1Members 3 5 = -(1250 * Real.sqrt 80000) := by
  simp only [assembleK, c1Members, List.foldl_cons, List.foldl_nil, addMemberK]
  simp only [show memberIndices c1Nodes (TrussMember.mk "AB" nodeA1 nodeB1) =
      ![0, 1, 2, 3] from rfl,
    show memberIndices c1Nodes (TrussMember.mk "BC" nodeB1 nodeC1) =
      ![2, 3, 4, 5] from rfl,
    show memberIndices c1Nodes (TrussMember.mk "AC" nodeA1 nodeC1) =
      ![0, 1, 4, 5] from rfl]
  simp only [Fin.sum_univ_four, Matrix.cons_val_zero, Matrix.cons_val_one,
    Matrix.head_cons, Matrix.cons_val_two, Matrix.cons_val_three,
    Matrix.cons_val_succ, Matrix.vecHead, Matrix.vecTail, Function.comp]
  norm_num
  simp only [memberK, Matrix.cons_val_zero, Matrix.cons_val_one,
    Matrix.head_cons, Matrix.cons_val_two, Matrix.cons_val_three,
    Matrix.cons_val_succ, Matrix.vecHead, Matrix.vecTail, Function.comp]
  simp only [hcABx, hsABx, hlABx, hcBCx, hsBCx, hlBCx, hcACx, hsACx, hlACx,
    elasticModulus, sectionArea, hscale]
  ring

theorem hK22x : assembleK c1Nodes c1Members 2 2 = 500000 + 1250 * Real.sqrt 80000 := by
  simp only [assembleK, c1Members, List.foldl_cons, List.foldl_nil, addMemberK]
  simp only [show memberIndices c1Nodes (TrussMember.mk "AB" nodeA1 nodeB1) =
      ![0, 1, 2, 3] from rfl,
    show memberIndices c1Nodes (TrussMember.mk "BC" nodeB1 nodeC1) =
      ![2, 3, 4, 5] from rfl,
    show memberIndices c1Nodes (TrussMember.mk "AC" nodeA1 nodeC1) =
      ![0, 1, 4, 5] from rfl]
  simp only [Fin.sum_univ_four, Matrix.cons_val_zero, Matrix.cons_val_one,
    Matrix.head_cons, Matrix.cons_val_two, Matrix.cons_val_three,
    Matrix.cons_val_succ, Matrix.vecHead, Matrix.vecTail, Function.comp]
  norm_num
  simp only [memberK, Matrix.cons_val_zero, Matrix.cons_val_one,
    Matrix.head_cons, Matrix.cons_val_two, Matrix.cons_val_three,
    Matrix.cons_val_succ, Matrix.vecHead, Matrix.vecTail, Function.comp]
  simp only [hcABx, hsABx, hlABx, hcBCx, hsBCx, hlBCx, hcACx, hsACx, hlACx,
    elasticModulus, sectionArea, hscale]
  ring

theorem hK24x : assembleK c1Nodes c1Members 2 4 = -(1250 * Real.sqrt 80000) := by
  simp only [assembleK, c1Members, List.foldl_cons, List.foldl_nil, addMemberK]
  simp only [show memberIndices c1Nodes (TrussMember.mk "AB" nodeA1 nodeB1) =
      ![0, 1, 2, 3] from rfl,
    show memberIndices c1Nodes (TrussMember.mk "BC" nodeB1 nodeC1) =
      ![2, 3, 4, 5] from rfl,
    show memberIndices c1Nodes (TrussMember.mk "AC" nodeA1 nodeC1) =
      ![0, 1, 4, 5] from rfl]
  simp only [Fin.sum_univ_four, Matrix.cons_val_zero, Matrix.cons_val_one,
    Matrix.head_cons, Matrix.cons_val_two, Matrix.cons_val_three,
    Matrix.cons_val_succ, Matrix.vecHead, Matrix.vecTail, Function.comp]
  norm_num
  simp only [memberK, Matrix.cons_val_zero, Matrix.cons_val_one,
    Matrix.head_cons, Matrix.cons_val_two, Matrix.cons_val_three,
    Matrix.cons_val_succ, Matrix.vecHead, Matrix.vecTail, Function.comp]
  simp only [hcABx, hsABx, hlABx, hcBCx, hsBCx, hlBCx, hcACx, hsACx, hlACx,
    elasticModulus, sectionArea, hscale]
  ring

theorem hK25x : assembleK c1Nodes c1Members 2 5 = -(1250 * Real.sqrt 80000) := by
  simp only [assembleK, c1Members, List.foldl_cons, List.foldl_nil, addMemberK]
  simp only [show memberIndices c1Nodes (TrussMember.mk "AB" nodeA1 nodeB1) =
      ![0, 1, 2, 3] from rfl,
    show memberIndices c1Nodes (TrussMember.mk "BC" nodeB1 nodeC1) =
      ![2, 3, 4, 5] from rfl,
    show memberIndices c1Nodes (TrussMember.mk "AC" nodeA1 nodeC1) =
      ![0, 1, 4, 5] from rfl]
  simp only [Fin.sum_univ_four, Matrix.cons_val_zero, Matrix.cons_val_one,
    Matrix.head_cons, Matrix.cons_val_two, Matrix.cons_val_three,
    Matrix.cons_val_succ, Matrix.vecHead, Matrix.vecTail, Function.comp]
  norm_num
  simp only [memberK, Matrix.cons_val_zero, Matrix.cons_val_one,
    Matrix.head_cons, Matrix.cons_val_two, Matrix.cons_val_three,
    Matrix.cons_val_succ, Matrix.vecHead, Matrix.vecTail, Function.comp]
  simp only [hcABx, hsABx, hlABx, hcBCx, hsBCx, hlBCx, hcACx, hsACx, hlACx,
    elasticModulus, sectionArea, hscale]
  ring

theorem hK42x : assembleK c1Nodes c1Members 4 2 = -(1250 * Real.sqrt 80000) := by
  simp only [assembleK, c1Members, List.foldl_cons, List.foldl_nil, addMemberK]
  simp only [show memberIndices c1Nodes (TrussMember.mk "AB" nodeA1 nodeB1) =
      ![0, 1, 2, 3] from rfl,
    show memberIndices c1Nodes (TrussMember.mk "BC" nodeB1 nodeC1) =
      ![2, 3, 4, 5] from rfl,
    show memberIndices c1Nodes (TrussMember.mk "AC" nodeA1 nodeC1) =
      ![0, 1, 4, 5] from rfl]
  simp only [Fin.sum_univ_four, Matrix.cons_val_zero, Matrix.cons_val_one,
    Matrix.head_cons, Matrix.cons_val_two, Matrix.cons_val_three,
    Matrix.cons_val_succ, Matrix.vecHead, Matrix.vecTail, Function.comp]
  norm_num
  simp only [memberK, Matrix.cons_val_zero, Matrix.cons_val_one,
    Matrix.head_cons, Matrix.cons_val_two, Matrix.cons_val_three,
    Matrix.cons_val_succ, Matrix.vecHead, Matrix.vecTail, Function.comp]
  simp only [hcABx, hsABx, hlABx, hcBCx, hsBCx, hlBCx, hcACx, hsACx, hlACx,
    elasticModulus, sectionArea, hscale]
  ring

theorem hK44x : assembleK c1Nodes c1Members 4 4 = 2500 * Real.sqrt 80000 := by
  simp only [assembleK, c1Members, List.foldl_cons, List.foldl_nil, addMemberK]
  simp only [show memberIndices c1Nodes (TrussMember.mk "AB" nodeA1 nodeB1) =
      ![0, 1, 2, 3] from rfl,
    show memberIndices c1Nodes (TrussMember.mk "BC" nodeB1 nodeC1) =
      ![2, 3, 4, 5] from rfl,
    show memberIndices c1Nodes (TrussMember.mk "AC" nodeA1 nodeC1) =
      ![0, 1, 4, 5] from rfl]
  simp only [Fin.sum_univ_four, Matrix.cons_val_zero, Matrix.cons_val_one,
    Matrix.head_cons, Matrix.cons_val_two, Matrix.cons_val_three,
    Matrix.cons_val_succ, Matrix.vecHead, Matrix.vecTail, Function.comp]
  norm_num
  simp only [memberK, Matrix.cons_val_zero, Matrix.cons_val_one,
    Matrix.head_cons, Matrix.cons_val_two, Matrix.cons_val_three,
    Matrix.cons_val_succ, Matrix.vecHead, Matrix.vecTail, Function.comp]
  simp only [hcABx, hsABx, hlABx, hcBCx, hsBCx, hlBCx, hcACx, hsACx, hlACx,
    elasticModulus, sectionArea, hscale]
  ring

theorem hK45x : assembleK c1Nodes c1Members 4 5 = 0 := by
  simp only [assembleK, c1Members, List.foldl_cons, List.foldl_nil, addMemberK]
  simp only [show memberIndices c1Nodes (TrussMember.mk "AB" nodeA1 nodeB1) =
      ![0, 1, 2, 3] from rfl,
    show memberIndices c1Nodes (TrussMember.mk "BC" nodeB1 nodeC1) =
      ![2, 3, 4, 5] from rfl,
    show memberIndices c1Nodes (TrussMember.mk "AC" nodeA1 nodeC1) =
      ![0, 1, 4, 5] from rfl]
  simp only [Fin.sum_univ_four, Matrix.cons_val_zero, Matrix.cons_val_one,
    Matrix.head_cons, Matrix.cons_val_two, Matrix.cons_val_three,
    Matrix.cons_val_succ, Matrix.vecHead, Matrix.vecTail, Function.comp]
  norm_num
  simp only [memberK, Matrix.cons_val_zero, Matrix.cons_val_one,
    Matrix.head_cons, Matrix.cons_val_two, Matrix.cons_val_three,
    Matrix.cons_val_succ, Matrix.vecHead, Matrix.vecTail, Function.comp]
  simp only [hcABx, hsABx, hlABx, hcBCx, hsBCx, hlBCx, hcACx, hsACx, hlACx,
    elasticModulus, sectionArea, hscale]
  ring

theorem hK52x : assembleK c1Nodes c1Members 5 2 = -(1250 * Real.sqrt 80000) := by
  simp only [assembleK, c1Members, List.foldl_cons, List.foldl_nil, addMemberK]
  simp only [show memberIndices c1Nodes (TrussMember.mk "AB" nodeA1 nodeB1) =
      ![0, 1, 2, 3] from rfl,
    show memberIndices c1Nodes (TrussMember.mk "BC" nodeB1 nodeC1) =
      ![2, 3, 4, 5] from rfl,
    show memberIndices c1Nodes (TrussMember.mk "AC" nodeA1 nodeC1) =
      ![0, 1, 4, 5] from rfl]
  simp only [Fin.sum_univ_four, Matrix.cons_val_zero, Matrix.cons_val_one,
    Matrix.head_cons, Matrix.cons_val_two, Matrix.cons_val_three,
    Matrix.cons_val_succ, Matrix.vecHead, Matrix.vecTail, Function.comp]
  norm_num
  simp only [memberK, Matrix.cons_val_zero, Matrix.cons_val_one,
    Matrix.head_cons, Matrix.cons_val_two, Matrix.cons_val_three,
    Matrix.cons_val_succ, Matrix.vecHead, Matrix.vecTail, Function.comp]
  simp only [hcABx, hsABx, hlABx, hcBCx, hsBCx, hlBCx, hcACx, hsACx, hlACx,
    elasticModulus, sectionArea, hscale]
  ring

theorem hK54x : assembleK c1Nodes c1Members 5 4 = 0 := by
  simp only [assembleK, c1Members, List.foldl_cons, List.foldl_nil, addMemberK]
  simp only [show memberIndices c1Nodes (TrussMember.mk "AB" nodeA1 nodeB1) =
      ![0, 1, 2, 3] from rfl,
    show memberIndices c1Nodes (TrussMember.mk "BC" nodeB1 nodeC1) =
      ![2, 3, 4, 5] from rfl,
    show memberIndices c1Nodes (TrussMember.mk "AC" nodeA1 nodeC1) =
      ![0, 1, 4, 5] from rfl]
  simp only [Fin.sum_univ_four, Matrix.cons_val_zero, Matrix.cons_val_one,
    Matrix.head_cons, Matrix.cons_val_two, Matrix.cons_val_three,
    Matrix.cons_val_succ, Matrix.vecHead, Matrix.vecTail, Function.comp]
  norm_num
  simp only [memberK, Matrix.cons_val_zero, Matrix.cons_val_one,
    Matrix.head_cons, Matrix.cons_val_two, Matrix.cons_val_three,
    Matrix.cons_val_succ, Matrix.vecHead, Matrix.vecTail, Function.comp]
  simp only [hcABx, hsABx, hlABx, hcBCx, hsBCx, hlBCx, hcACx, hsACx, hlACx,
    elasticModulus, sectionArea, hscale]
  ring

theorem hK55x : assembleK c1Nodes c1Members 5 5 = 2500 * Real.sqrt 80000 := by
  simp only [assembleK, c1Members, List.foldl_cons, List.foldl_nil, addMemberK]
  simp only [show memberIndices c1Nodes (TrussMember.mk "AB" nodeA1 nodeB1) =
      ![0, 1, 2, 3] from rfl,
    show memberIndices c1Nodes (TrussMember.mk "BC" nodeB1 nodeC1) =
      ![2, 3, 4, 5] from rfl,
    show memberIndices c1Nodes (TrussMember.mk "AC" nodeA1 nodeC1) =
      ![0, 1, 4, 5] from rfl]
  simp only [Fin.sum_univ_four, Matrix.cons_val_zero, Matrix.cons_val_one,
    Matrix.head_cons, Matrix.cons_val_two, Matrix.cons_val_three,
    Matrix.cons_val_succ, Matrix.vecHead, Matrix.vecTail, Function.comp]
  norm_num
  simp only [memberK, Matrix.cons_val_zero, Matrix.cons_val_one,
    Matrix.head_cons, Matrix.cons_val_two, Matrix.cons_val_three,
    Matrix.cons_val_succ, Matrix.vecHead, Matrix.vecTail, Function.comp]
  simp only [hcABx, hsABx, hlABx, hcBCx, hsBCx, hlBCx, hcACx, hsACx, hlACx,
    elasticModulus, sectionArea, hscale]
  ring


theorem hfreex : freeDOF c1Nodes = [2, 4, 5] := rfl

theorem hKredx : reducedK c1Nodes c1Members =
    [[500000 + 1250 * Real.sqrt 80000, -(1250 * Real.sqrt 80000),
      -(1250 * Real.sqrt 80000)],
     [-(1250 * Real.sqrt 80000), 2500 * Real.sqrt 80000, 0],
     [-(1250 * Real.sqrt 80000), 0, 2500 * Real.sqrt 80000]] := by
  rw [reducedK, hfreex]
  simp only [List.map_cons, List.map_nil]
  rw [hK22x, hK24x, hK25x, hK42x, hK44x, hK45x, hK52x, hK54x, hK55x]

theorem hFredx : reducedF c1Nodes = [0, 0, 10] := by
  rw [reducedF, hfreex]
  simp only [List.map_cons, List.map_nil]
  norm_num [buildF, buildFAux, c1Nodes, nodeA1, nodeB1, nodeC1]

theorem hdx : displacements c1Nodes c1Members =
    [1 / 100000, 1 / 200000, Real.sqrt 80000 / 20000000 + 1 / 200000] := by
  have ht2 : Real.sqrt 80000 ^ 2 = 80000 := Real.sq_sqrt (by norm_num)
  have ht0 : (0:ℝ) < Real.sqrt 80000 := Real.sqrt_pos.mpr (by norm_num)
  have htne : Real.sqrt 80000 ≠ 0 := ne_of_gt ht0
  have hp0 : (500000 : ℝ) + 1250 * Real.sqrt 80000 ≠ 0 := by positivity
  simp only [displacements]
  rw [hKredx, hFredx]
  simp only [forwardElim, backSub, backSubStep, innerElim, List.length_cons,
    List.length_nil, List.range_succ, List.range_zero, List.range',
    List.foldl_cons, List.foldl_nil, List.getD_cons_zero, List.getD_cons_succ,
    List.set_cons_zero, List.set_cons_succ, List.map_cons, List.map_nil,
    List.sum_cons, List.sum_nil, List.replicate, List.reverse_cons,
    List.reverse_nil, List.nil_append, List.cons_append, List.length_reverse,
    Nat.zero_le, Nat.le_succ, le_refl, if_true]
  have h800 : (800 : ℝ) + Real.sqrt 80000 ≠ 0 := by positivity
  have hD1eq : 2500 * Real.sqrt 80000 - -(1250 * Real.sqrt 80000) /
        (500000 + 1250 * Real.sqrt 80000) * -(1250 * Real.sqrt 80000) =
      (1250000000 * Real.sqrt 80000 + 1562500 * Real.sqrt 80000 ^ 2) /
        (500000 + 1250 * Real.sqrt 80000) := by
    field_simp
    linear_combination (1562500 : ℝ) * ht2
  have hD1ne : 2500 * Real.sqrt 80000 - -(1250 * Real.sqrt 80000) /
        (500000 + 1250 * Real.sqrt 80000) * -(1250 * Real.sqrt 80000) ≠ 0 := by
    rw [hD1eq]
    positivity
  have hD2eq : 2500 * Real.sqrt 80000 - -(1250 * Real.sqrt 80000) /
        (500000 + 1250 * Real.sqrt 80000) * -(1250 * Real.sqrt 80000) -
      (0 - -(1250 * Real.sqrt 80000) / (500000 + 1250 * Real.sqrt 80000) *
        -(1250 * Real.sqrt 80000)) /
      (2500 * Real.sqrt 80000 - -(1250 * Real.sqrt 80000) /
        (500000 + 1250 * Real.sqrt 80000) * -(1250 * Real.sqrt 80000)) *
      (0 - -(1250 * Real.sqrt 80000) / (500000 + 1250 * Real.sqrt 80000) *
        -(1250 * Real.sqrt 80000)) =
      2000000 * Real.sqrt 80000 / (800 + Real.sqrt 80000) := by
    rw [hD1eq]
    field_simp
    linear_combination (-39062500000000000000000000000000 -
      634765625000000000000000000000 * Real.sqrt 80000 -
      2929687500000000000000000000 * Real.sqrt 80000 ^ 2 -
      5798339843750000000000000 * Real.sqrt 80000 ^ 3 -
      6103515625000000000000 * Real.sqrt 80000 ^ 4 -
      3814697265625000000 * Real.sqrt 80000 ^ 5) * ht2
  have hD2ne : 2500 * Real.sqrt 80000 - -(1250 * Real.sqrt 80000) /
        (500000 + 1250 * Real.sqrt 80000) * -(1250 * Real.sqrt 80000) -
      (0 - -(1250 * Real.sqrt 80000) / (500000 + 1250 * Real.sqrt 80000) *
        -(1250 * Real.sqrt 80000)) /
      (2500 * Real.sqrt 80000 - -(1250 * Real.sqrt 80000) /
        (500000 + 1250 * Real.sqrt 80000) * -(1250 * Real.sqrt 80000)) *
      (0 - -(1250 * Real.sqrt 80000) / (500000 + 1250 * Real.sqrt 80000) *
        -(1250 * Real.sqrt 80000)) ≠ 0 := by
    rw [hD2eq]
    positivity
  simp only [List.cons.injEq, and_true]
  refine ⟨?_, ?_, ?_⟩
  · simp only [hD2eq]
    simp only [hD1eq]
    set_option maxHeartbeats 1000000 in field_simp
    linear_combination (4882812500000000000000000 * Real.sqrt 80000 ^ 4 +
      1953125000000000000000000000 * Real.sqrt 80000 ^ 3) * ht2
  · simp only [hD2eq]
    simp only [hD1eq]
    set_option maxHeartbeats 1000000 in field_simp
    linear_combination (3906250000000000 * Real.sqrt 80000 ^ 2 +
      1562500000000000000 * Real.sqrt 80000) * ht2
  · simp only [hD2eq]
    simp only [hD1eq]
    set_option maxHeartbeats 1000000 in field_simp
    linear_combination (-400000000000 : ℝ) * ht2


theorem hfixx : fixedDOF c1Nodes = [0, 1, 3] := rfl

theorem hsumx : reactionEntryY c1Nodes c1Members 0 +
    reactionEntryY c1Nodes c1Members 1 = 10 := by
  have ht2 : Real.sqrt 80000 ^ 2 = 80000 := Real.sq_sqrt (by norm_num)
  rw [reactionEntryY, reactionEntryY, hfreex, hfixx]
  rw [show (2 * ((0:ℕ):ℤ) + 1) = 1 by norm_num]
  rw [show (2 * ((1:ℕ):ℤ) + 1) = 3 by norm_num]
  rw [if_pos (by decide : (([0, 1, 3] : List ℤ).contains 1) = true)]
  rw [if_pos (by decide : (([0, 1, 3] : List ℤ).contains 3) = true)]
  simp only [List.map_cons, List.map_nil, List.sum_cons, List.sum_nil]
  rw [show ([2, 4, 5] : List ℤ).indexOf 2 = 0 from rfl,
    show ([2, 4, 5] : List ℤ).indexOf 4 = 1 from rfl,
    show ([2, 4, 5] : List ℤ).indexOf 5 = 2 from rfl]
  rw [hdx]
  simp only [List.getD_cons_zero, List.getD_cons_succ]
  rw [hK12x, hK14x, hK15x, hK32x, hK34x, hK35x]
  rw [show buildF c1Nodes 1 = 0 by
    norm_num [buildF, buildFAux, c1Nodes, nodeA1, nodeB1, nodeC1]]
  rw [show buildF c1Nodes 3 = 0 by
    norm_num [buildF, buildFAux, c1Nodes, nodeA1, nodeB1, nodeC1]]
  linear_combination (1 / 8000 : ℝ) * ht2

theorem hlookAx : lookupLast
    (calculateTrussForces c1Nodes c1Members).reactionForces "A" =
    some (ReactionForces.mk (reactionEntryX c1Nodes c1Members 0)
      (reactionEntryY c1Nodes c1Members 0)) := by
  rw [calculateTrussForces]
  simp only [reactionForcesList]
  rw [show (c1Nodes : List TrussNode) = [nodeA1, nodeB1, nodeC1] from rfl]
  simp only [reactionsAux, nodeA1, nodeB1, nodeC1, Option.isSome_some,
    Option.isSome_none, if_true, Bool.false_eq_true, if_false,
    List.cons_append, List.nil_append, lookupLast, List.filterMap]
  norm_num
  rw [if_neg (show ¬("B" : String) = "A" by decide)]
  rfl

theorem hlookBx : lookupLast
    (calculateTrussForces c1Nodes c1Members).reactionForces "B" =
    some (ReactionForces.mk (reactionEntryX c1Nodes c1Members 1)
      (reactionEntryY c1Nodes c1Members 1)) := by
  rw [calculateTrussForces]
  simp only [reactionForcesList]
  rw [show (c1Nodes : List TrussNode) = [nodeA1, nodeB1, nodeC1] from rfl]
  simp only [reactionsAux, nodeA1, nodeB1, nodeC1, Option.isSome_some,
    Option.isSome_none, if_true, Bool.false_eq_true, if_false,
    List.cons_append, List.nil_append, lookupLast, List.filterMap]
  norm_num
  rw [if_neg (show ¬("A" : String) = "B" by decide)]
  rfl

/-- C1: on the right-triangle truss (hinged support at A=(0,0), roller at
B=(400,0), apex C=(200,−200), members AB, BC, AC, 10 kN downward load at
C) the engine returns a result whose reaction map contains entries for A
and B, and their y components sum to exactly 10 kN (hence within the
1e-6 tolerance). -/
theorem c1_right_triangle_equilibrium :
    (calculateTrussForces c1Nodes c1Members).isStable = true ∧
    ∃ rA rB : ReactionForces,
      lookupLast (calculateTrussForces c1Nodes c1Members).reactionForces
        "A" = some rA ∧
      lookupLast (calculateTrussForces c1Nodes c1Members).reactionForces
        "B" = some rB ∧
      rA.y + rB.y = 10 ∧
      |rA.y + rB.y - 10| < 1 / 1000000 := by
  refine ⟨rfl, _, _, hlookAx, hlookBx, hsumx, ?_⟩
  show |reactionEntryY c1Nodes c1Members 0 +
    reactionEntryY c1Nodes c1Members 1 - 10| < 1 / 1000000
  rw [hsumx]
  norm_num

end Truss
